import Mathlib

/-!
# CareLens client: chat session core (`frontend/src/pages/AIChat.js`)

A shallow embedding of the state held by the `AIChat` component and of the
handlers that change it.  React state cells become fields of `ChatState`;
every handler becomes a pure function on `ChatState`.  The body of
`sendMessage` is split at its single `await`: `sendMessage` is the part that
runs synchronously inside the event handler, `resolveSuccess` and
`resolveFailure` are the two continuations (the rest of the `try` block, and the
`catch` block), each followed by the trailing `setSending(false)`.

The continuation of a request reads the `sessionId` captured by the closure
that issued it, so every request in flight remembers that captured value.

JavaScript strings are modelled by Lean strings, `null` / `undefined` by
`none`, and `new Date().toISOString()` by an explicit `now` argument.
-/

namespace AIChat

/-! ## Strings -/

/-- Code points removed by `String.prototype.trim`: the ECMAScript `WhiteSpace`
and `LineTerminator` productions. -/
def isWhiteSpace (c : Char) : Bool :=
  let n := c.toNat
  n == 0x09 || n == 0x0A || n == 0x0B || n == 0x0C || n == 0x0D || n == 0x20 ||
  n == 0xA0 || n == 0x1680 || (0x2000 ≤ n && n ≤ 0x200A) ||
  n == 0x2028 || n == 0x2029 || n == 0x202F || n == 0x205F || n == 0x3000 || n == 0xFEFF

/-- The method `String.prototype.trim`: white space is dropped at both ends. -/
def trim (s : String) : String :=
  ⟨(s.data.dropWhile isWhiteSpace).rdropWhile isWhiteSpace⟩

/-- JavaScript `!s` for a string `s`: only the empty string is falsy. -/
def strFalsy (s : String) : Bool := s.data.isEmpty

/-- JavaScript `!v` for a value that is `null` or a string. -/
def idFalsy : Option String → Bool
  | none => true
  | some v => strFalsy v

/-- JavaScript `a || b` on values that are `undefined` or a string. -/
def orElseStr (a : Option String) (b : String) : String :=
  match a with
  | none => b
  | some v => if strFalsy v then b else v

/-! ## Data model -/

/-- The two values taken by the `role` field of a message. -/
inductive Role where
  | user
  | assistant
  deriving DecidableEq, Repr

/-- An entry of `messages`.  The field `error` is only ever written as `true`;
where the source leaves it out it is `false` here. -/
structure ChatMessage where
  role : Role
  content : String
  timestamp : String
  error : Bool := false
  deriving DecidableEq, Repr

/-- The body posted to `/chat/message`, with the values the issuing closure
captured. -/
structure ChatRequest where
  message : String
  language : String
  session_id : Option String
  deriving DecidableEq, Repr

/-- The state cells of the `AIChat` component, together with the requests that
have been posted and whose continuation has not run yet. -/
structure ChatState where
  messages : List ChatMessage
  input : String
  language : String
  sessionId : Option String
  sending : Bool
  showLangPicker : Bool
  inflight : List ChatRequest
  deriving DecidableEq, Repr

/-- The language list offered by the picker. -/
def LANGUAGES : List String :=
  ["English", "Hindi", "Bengali", "Telugu", "Marathi", "Tamil",
   "Gujarati", "Kannada", "Malayalam", "Punjabi", "Odia",
   "Assamese", "Urdu", "Sanskrit", "Sindhi"]

/-- The arguments of the `useState` calls. -/
def initialState : ChatState :=
  { messages := [], input := "", language := "English", sessionId := none,
    sending := false, showLangPicker := false, inflight := [] }

/-! ## Handlers -/

/-- Text of the greeting built by the welcome effect. -/
def welcomeContent (userName : Option String) : String :=
  "Namaste " ++ orElseStr userName "" ++
  "! I'm your CareLens AI health assistant. I can help you with:\n\n• Symptom analysis & health guidance\n• Understanding your BP readings\n• Finding nearby hospitals\n• Emergency first aid tips\n• General health advice\n\nHow can I help you today? You can ask me in any of the 15 Indian languages!"

/-- The welcome effect, run on mount and whenever `user` changes. -/
def welcome (userName : Option String) (now : String) (s : ChatState) : ChatState :=
  { s with messages :=
      [{ role := Role.assistant, content := welcomeContent userName, timestamp := now }] }

/-- The `onChange` handler of the text area (also the body of a quick prompt). -/
def setInput (text : String) (s : ChatState) : ChatState :=
  { s with input := text }

/-- The message object `userMsg` built by `sendMessage`. -/
def userMsg (now : String) (s : ChatState) : ChatMessage :=
  { role := Role.user, content := trim s.input, timestamp := now }

/-- The synchronous part of `sendMessage`, up to and including the call of
`axios.post`. -/
def sendMessage (now : String) (s : ChatState) : ChatState :=
  if strFalsy (trim s.input) || s.sending then s
  else
    { s with
      messages := s.messages ++ [userMsg now s]
      input := ""
      sending := true
      inflight := s.inflight ++
        [{ message := (userMsg now s).content, language := s.language,
           session_id := s.sessionId }] }

/-- The fixed text shown when the request fails. -/
def apology : String :=
  "I'm having trouble connecting right now. Please try again in a moment."

/-- The continuation of the oldest request in flight when `axios.post` resolves
with `res.data.session_id = dataSessionId` and `res.data.response = response`. -/
def resolveSuccess (dataSessionId : Option String) (response : String) (now : String)
    (s : ChatState) : ChatState :=
  match s.inflight with
  | [] => s
  | r :: rest =>
    { s with
      sessionId := if idFalsy r.session_id then dataSessionId else s.sessionId
      messages := s.messages ++
        [{ role := Role.assistant, content := response, timestamp := now }]
      sending := false
      inflight := rest }

/-- The continuation of the oldest request in flight when `axios.post` rejects. -/
def resolveFailure (now : String) (s : ChatState) : ChatState :=
  match s.inflight with
  | [] => s
  | _ :: rest =>
    { s with
      messages := s.messages ++
        [{ role := Role.assistant, content := apology, timestamp := now, error := true }]
      sending := false
      inflight := rest }

/-- Text of the message seeded by `startNewChat`. -/
def seedContent : String := "Starting a new conversation! How can I help you today?"

/-- The message seeded by `startNewChat`. -/
def seedMsg (now : String) : ChatMessage :=
  { role := Role.assistant, content := seedContent, timestamp := now }

/-- The handler `startNewChat`. -/
def startNewChat (now : String) (s : ChatState) : ChatState :=
  { s with sessionId := none, messages := [seedMsg now] }

/-- The `onClick` handler of the language picker button. -/
def toggleLangPicker (s : ChatState) : ChatState :=
  { s with showLangPicker := !s.showLangPicker }

/-- The `onClick` handler of one entry of the language drop-down. -/
def setLanguage (lang : String) (s : ChatState) : ChatState :=
  { s with language := lang, showLangPicker := false }

/-! ## Step relation -/

/-- Everything that can happen to the chat state. -/
inductive ChatOp where
  | welcome (userName : Option String) (now : String)
  | setInput (text : String)
  | sendMessage (now : String)
  | resolveSuccess (dataSessionId : Option String) (response : String) (now : String)
  | resolveFailure (now : String)
  | startNewChat (now : String)
  | toggleLangPicker
  | setLanguage (lang : String)
  deriving DecidableEq, Repr

/-- One step of the chat state. -/
def step (s : ChatState) : ChatOp → ChatState
  | .welcome u now => welcome u now s
  | .setInput t => setInput t s
  | .sendMessage now => sendMessage now s
  | .resolveSuccess sid r now => resolveSuccess sid r now s
  | .resolveFailure now => resolveFailure now s
  | .startNewChat now => startNewChat now s
  | .toggleLangPicker => toggleLangPicker s
  | .setLanguage l => setLanguage l s

/-- A finite run of steps, oldest first. -/
def run (s : ChatState) (ops : List ChatOp) : ChatState :=
  ops.foldl step s

/-- A text is blank when it is empty or made of white space only. -/
def isBlank (text : String) : Bool := text.data.all isWhiteSpace

/-- The guard of `sendMessage` lets the call through. -/
def accepted (s : ChatState) : Prop := trim s.input ≠ "" ∧ s.sending = false

instance (s : ChatState) : Decidable (accepted s) := by
  unfold accepted; infer_instance

/-- Steps that leave the transcript and the session alone while a request is in
flight: typing, the language picker, and a further call of `sendMessage`. -/
def ChatOp.isQuiet : ChatOp → Bool
  | .setInput _ => true
  | .sendMessage _ => true
  | .toggleLangPicker => true
  | .setLanguage _ => true
  | _ => false

/-- The bookkeeping invariant: one request is in flight while `sending` is set,
none otherwise. -/
def flightInv (s : ChatState) : Prop := s.inflight.length = if s.sending then 1 else 0

/-- Steps that are a pick in the language drop-down. -/
def ChatOp.isSetLanguage : ChatOp → Bool
  | .setLanguage _ => true
  | _ => false

/-- A message is well formed when, if it is a user message, its content is not
empty and has no white space at either end. -/
def userMessageOk (m : ChatMessage) : Prop :=
  m.role = Role.user →
    m.content ≠ "" ∧
    ∀ c, m.content.data.head? = some c ∨ m.content.data.getLast? = some c →
      isWhiteSpace c = false

/-- A text has no white space at either end. -/
def noOuterWhiteSpace (text : String) : Prop :=
  ∀ c, text.data.head? = some c ∨ text.data.getLast? = some c → isWhiteSpace c = false

/-- Steps that are a continuation of a posted request. -/
def ChatOp.isResolve : ChatOp → Bool
  | .resolveSuccess _ _ _ => true
  | .resolveFailure _ => true
  | _ => false

/-- Steps that replace the transcript by a single seeded message: the welcome
effect and `startNewChat`. -/
def ChatOp.isSeed : ChatOp → Bool
  | .welcome _ _ => true
  | .startNewChat _ => true
  | _ => false

end AIChat

/-!
# Location acquisition (shared by three pages)

`navigator.geolocation.getCurrentPosition(success, error)` is modelled by its
outcome.  Coordinates are JSON numbers; they are only stored, compared and
passed on, never computed with, so they are modelled by rationals.
-/

namespace Geolocation

/-- The object `{ lat, lng }` stored by `setLocation` and resolved by `getPos`. -/
structure Position where
  lat : ℚ
  lng : ℚ
  deriving DecidableEq, Repr

/-- What a platform geolocation read can do: call the success callback with
`pos.coords`, call the error callback (failure or denial), or not be available
at all (`navigator.geolocation` is falsy). -/
inductive GeoOutcome where
  | success (latitude longitude : ℚ)
  | error
  | absent
  deriving DecidableEq, Repr

/-- The literal `{ lat: 9.1742, lng: 77.8697 }` written at each site. -/
def defaultPosition : Position := { lat := 91742 / 10000, lng := 778697 / 10000 }

/-- Outcome of an HTTP call made with `axios`: the body `res.data`, or a rejection. -/
inductive Reply (α : Type) where
  | ok (data : α)
  | failed
  deriving DecidableEq, Repr

end Geolocation

/-!
# Hospital finder (`frontend/src/pages/HospitalFinder.js`)

`toLowerCase` and `toFixed(2)` are platform functions; the definitions take them
as the parameters `lower` and `toFixed2`.
-/

namespace HospitalFinder

open Geolocation

/-- A hospital record as the pages read it. -/
structure Hospital where
  id : String
  name : String
  city : String
  state : String
  type : String
  emergency : Bool
  ambulance : Bool
  beds : Option Nat
  specialties : Option (List String)
  phone : String
  lat : ℚ
  lng : ℚ
  distance_km : Option ℚ
  deriving DecidableEq, Repr

/-- The state cells of the `HospitalFinder` component. -/
structure FinderState where
  hospitals : List Hospital
  filtered : List Hospital
  location : Option Position
  locationName : String
  search : String
  filterType : String
  showAmbulanceOnly : Bool
  loading : Bool
  deriving DecidableEq, Repr

/-- The arguments of the `useState` calls. -/
def initialState : FinderState :=
  { hospitals := [], filtered := [], location := none,
    locationName := "Detecting location...", search := "", filterType := "all",
    showAmbulanceOnly := false, loading := true }

/-- The method `String.prototype.includes`: `sub` occurs in `s` as a contiguous
run. -/
def includes (s sub : String) : Bool :=
  s.data.tails.any fun t => sub.data.isPrefixOf t

/-- The callback of the first `filter` call of the filter effect. -/
def matchesSearch (lower : String → String) (search : String) (h : Hospital) : Bool :=
  includes (lower h.name) (lower search) ||
  includes (lower h.city) (lower search) ||
  (match h.specialties with
   | none => false
   | some sp => sp.any fun t => includes (lower t) (lower search))

/-- The value `result` computed by the filter effect. -/
def applyFilters (lower : String → String) (search filterType : String)
    (showAmbulanceOnly : Bool) (hospitals : List Hospital) : List Hospital :=
  let result := hospitals
  let result := if !AIChat.strFalsy search then result.filter (matchesSearch lower search)
    else result
  let result := if filterType != "all" then result.filter (fun h => h.type == filterType)
    else result
  let result := if showAmbulanceOnly then result.filter (fun h => h.ambulance) else result
  result

/-- The filter effect: `setFiltered(result)`. -/
def filterEffect (lower : String → String) (s : FinderState) : FinderState :=
  { s with filtered := applyFilters lower s.search s.filterType s.showAmbulanceOnly s.hospitals }

/-- The first stage of the filter effect on its own. -/
def searchStage (lower : String → String) (search : String) (l : List Hospital) :
    List Hospital :=
  if !AIChat.strFalsy search then l.filter (matchesSearch lower search) else l

/-- The second stage of the filter effect on its own. -/
def typeStage (filterType : String) (l : List Hospital) : List Hospital :=
  if filterType != "all" then l.filter (fun h => h.type == filterType) else l

/-- The third stage of the filter effect on its own. -/
def ambulanceStage (showAmbulanceOnly : Bool) (l : List Hospital) : List Hospital :=
  if showAmbulanceOnly then l.filter (fun h => h.ambulance) else l

/-- The three conditions a hospital has to meet, written out: the search text is
empty or its lower-cased form occurs in the lower-cased name, city or some
specialty; the type filter is "all" or is the type of the hospital; the ambulance
toggle is off or the hospital has an ambulance. -/
def passes (lower : String → String) (search filterType : String)
    (showAmbulanceOnly : Bool) (h : Hospital) : Prop :=
  (search = "" ∨
    (lower search).data <:+: (lower h.name).data ∨
    (lower search).data <:+: (lower h.city).data ∨
    ∃ sp, h.specialties = some sp ∧ ∃ t ∈ sp, (lower search).data <:+: (lower t).data) ∧
  (filterType = "all" ∨ h.type = filterType) ∧
  (showAmbulanceOnly = false ∨ h.ambulance = true)

/-- The two GET requests the page can issue. -/
inductive HospitalRequest where
  | nearby (lat lng : ℚ) (radius : Nat)
  | all
  deriving DecidableEq, Repr

/-- What a call of `fetchNearby` leaves behind: the state, the requests issued in
order, and whether the returned promise was rejected (an error nobody handles). -/
structure FetchResult where
  state : FinderState
  requests : List HospitalRequest
  unhandled : Bool
  deriving DecidableEq, Repr

/-- The callback `fetchNearby`, run to completion against the outcome `nearby` of
the nearby query and the outcome `all` of the full-catalog query.  The second
request is issued only inside the `catch` block; when it is rejected too, the
function is left before `setLoading(false)`. -/
def fetchNearby (lat lng : ℚ) (nearby all : Reply (List Hospital)) (s : FinderState) :
    FetchResult :=
  let s := { s with loading := true }
  match nearby with
  | .ok data =>
    { state := { s with hospitals := data, filtered := data, loading := false },
      requests := [.nearby lat lng 200], unhandled := false }
  | .failed =>
    match all with
    | .ok data =>
      { state := { s with hospitals := data, filtered := data, loading := false },
        requests := [.nearby lat lng 200, .all], unhandled := false }
    | .failed =>
      { state := s, requests := [.nearby lat lng 200, .all], unhandled := true }

/-- The label built by the success callback of the geolocation effect. -/
def liveLocationName (toFixed2 : ℚ → String) (latitude longitude : ℚ) : String :=
  "Your Location (" ++ toFixed2 latitude ++ "°N, " ++ toFixed2 longitude ++ "°E)"

/-- The label set by the error callback of the geolocation effect. -/
def defaultLocationName : String := "Kovilpatti, Tamil Nadu (Default)"

/-- The geolocation effect of the page, with the fetch it starts run to
completion. -/
def geolocationEffect (toFixed2 : ℚ → String) (geo : GeoOutcome)
    (nearby all : Reply (List Hospital)) (s : FinderState) : FetchResult :=
  match geo with
  | .success latitude longitude =>
    fetchNearby latitude longitude nearby all
      { s with location := some { lat := latitude, lng := longitude },
               locationName := liveLocationName toFixed2 latitude longitude }
  | .error =>
    fetchNearby defaultPosition.lat defaultPosition.lng nearby all
      { s with location := some defaultPosition, locationName := defaultLocationName }
  | .absent => { state := s, requests := [], unhandled := false }

/-- The three stages of the filter effect as one test on a hospital. -/
def keeps (lower : String → String) (search filterType : String)
    (showAmbulanceOnly : Bool) (h : Hospital) : Bool :=
  (AIChat.strFalsy search || matchesSearch lower search h) &&
  (filterType == "all" || h.type == filterType) &&
  (!showAmbulanceOnly || h.ambulance)

/-- The distance of a hospital from the origin under the distance function `dist`. -/
def distanceOf (dist : Position → Position → ℚ) (origin : Position) (h : Hospital) : ℚ :=
  dist origin { lat := h.lat, lng := h.lng }

/-- A hospital record with its distance from the origin attached. -/
def attachDistance (dist : Position → Position → ℚ) (origin : Position) (h : Hospital) :
    Hospital :=
  { h with distance_km := some (distanceOf dist origin h) }

/-- The order used to rank hospitals: by distance, then by identifier. -/
def rankLe (dist : Position → Position → ℚ) (origin : Position) (a b : Hospital) : Prop :=
  distanceOf dist origin a < distanceOf dist origin b ∨
  (distanceOf dist origin a = distanceOf dist origin b ∧ a.id ≤ b.id)

instance (dist : Position → Position → ℚ) (origin : Position) :
    DecidableRel (rankLe dist origin) := by
  intro a b; unfold rankLe; infer_instance

/-- Modelled from the spec: the nearby query of the backend service, which the
pages only call (`GET /hospitals/nearby`).  Following the contract of the catalog
filter with an origin present, the hospitals within the radius are kept, every
hospital's distance from the origin is computed and attached as `distance_km`,
and the results are sorted ascending by distance, by identifier when distances
are equal.  The great-circle formula works on floating-point numbers and is the
parameter `dist`, giving kilometres rounded to one decimal. -/
def nearbyQuery (dist : Position → Position → ℚ) (origin : Position) (radius : ℚ)
    (catalog : List Hospital) : List Hospital :=
  ((catalog.filter fun h => distanceOf dist origin h ≤ radius).insertionSort
      (rankLe dist origin)).map (attachDistance dist origin)

/-- The list shown by the page after `fetchNearby` received the answer of the
nearby query for `origin` and the filter effect ran on it. -/
def nearbyView (lower : String → String) (dist : Position → Position → ℚ)
    (origin : Position) (radius : ℚ) (catalog : List Hospital)
    (all : Reply (List Hospital)) (s : FinderState) : List Hospital :=
  (filterEffect lower
    (fetchNearby origin.lat origin.lng (.ok (nearbyQuery dist origin radius catalog)) all
      s).state).filtered

/-- A private hospital with an ambulance, used in examples. -/
def sampleApollo : Hospital :=
  { id := "h-a", name := "Apollo Clinic", city := "Chennai", state := "Tamil Nadu",
    type := "Private", emergency := true, ambulance := true, beds := some 40,
    specialties := some ["Cardiology", "Neurology"], phone := "044-1000", lat := 13, lng := 80,
    distance_km := none }

/-- A government hospital without an ambulance, used in examples. -/
def sampleGovernment : Hospital :=
  { id := "h-g", name := "Government Hospital", city := "Kovilpatti", state := "Tamil Nadu",
    type := "Government", emergency := true, ambulance := false, beds := none,
    specialties := none, phone := "04632-2000", lat := 9, lng := 78, distance_km := none }

/-- A distance table for the two sample hospitals, used in examples. -/
def sampleDist (_origin p : Position) : ℚ := if p.lat = 13 then 540 else 12

/-- Lower-casing of the letters A to Z only; `toLowerCase` agrees with it on ASCII
text.  Used to evaluate the filter on examples. -/
def asciiLower (s : String) : String := ⟨s.data.map Char.toLower⟩

end HospitalFinder

/-!
# Patient dashboard (`frontend/src/pages/PatientDashboard.js`), location part
-/

namespace PatientDashboard

open Geolocation HospitalFinder

/-- The state cells of the dashboard that the geolocation effect writes. -/
structure DashboardState where
  nearbyHospitals : List Hospital
  location : Option Position
  locationName : String
  deriving DecidableEq, Repr

/-- The arguments of the `useState` calls. -/
def initialState : DashboardState :=
  { nearbyHospitals := [], location := none, locationName := "Detecting..." }

/-- The callback `fetchNearby` of the dashboard, run to completion. -/
def fetchNearby (nearby : Reply (List Hospital)) (s : DashboardState) : DashboardState :=
  match nearby with
  | .ok data => { s with nearbyHospitals := data.take 5 }
  | .failed => s

/-- The label built by the success callback of the geolocation effect. -/
def liveLocationName (toFixed2 : ℚ → String) (latitude longitude : ℚ) : String :=
  toFixed2 latitude ++ "°N, " ++ toFixed2 longitude ++ "°E"

/-- The label set by the error callback of the geolocation effect. -/
def defaultLocationName : String := "Kovilpatti, Tamil Nadu"

/-- The geolocation part of the mount effect, with the fetch it starts run to
completion. -/
def geolocationEffect (toFixed2 : ℚ → String) (geo : GeoOutcome)
    (nearby : Reply (List Hospital)) (s : DashboardState) : DashboardState :=
  match geo with
  | .success latitude longitude =>
    fetchNearby nearby
      { s with location := some { lat := latitude, lng := longitude },
               locationName := liveLocationName toFixed2 latitude longitude }
  | .error =>
    fetchNearby nearby
      { s with location := some defaultPosition, locationName := defaultLocationName }
  | .absent => s

end PatientDashboard

/-!
# Emergency page (`frontend/src/pages/EmergencyPage.js`)
-/

namespace EmergencyPage

open Geolocation

/-- The state cell `form`. -/
structure AmbulanceForm where
  patient_name : String
  phone : String
  emergency_type : String
  notes : String
  deriving DecidableEq, Repr

/-- The body posted to `/ambulance/request`. -/
structure AmbulancePayload where
  patient_name : String
  phone : String
  emergency_type : String
  notes : String
  lat : ℚ
  lng : ℚ
  deriving DecidableEq, Repr

/-- The body `res.data` of the answer, with the fields the page shows. -/
structure AmbulanceRequest where
  id : Option String
  status : String
  emergency_type : String
  eta_minutes : ℚ
  deriving DecidableEq, Repr

/-- The state cells of the `EmergencyPage` component. -/
structure EmergencyState where
  requesting : Bool
  ambulanceReq : Option AmbulanceRequest
  form : AmbulanceForm
  deriving DecidableEq, Repr

/-- The arguments of the `useState` calls; `userName` is `user?.name`. -/
def initialState (userName : Option String) : EmergencyState :=
  { requesting := false, ambulanceReq := none,
    form := { patient_name := AIChat.orElseStr userName "", phone := "",
              emergency_type := "general", notes := "" } }

/-- The local function `getPos` of `requestAmbulance`: the position its promise
resolves with. -/
def getPos (geo : GeoOutcome) : Position :=
  match geo with
  | .success latitude longitude => { lat := latitude, lng := longitude }
  | .error => defaultPosition
  | .absent => defaultPosition

/-- The expression `form.patient_name || user?.name || "Patient"`. -/
def payloadName (form : AmbulanceForm) (userName : Option String) : String :=
  AIChat.orElseStr
    (if AIChat.strFalsy form.patient_name then userName else some form.patient_name)
    "Patient"

/-- The object literal posted by `requestAmbulance`. -/
def buildPayload (form : AmbulanceForm) (userName : Option String) (pos : Position) :
    AmbulancePayload :=
  { patient_name := payloadName form userName, phone := form.phone,
    emergency_type := form.emergency_type, notes := form.notes,
    lat := pos.lat, lng := pos.lng }

/-- What a call of `requestAmbulance` leaves behind: the state, the route passed
to `navigate` if any, the number of geolocation reads and the bodies posted. -/
structure RequestResult where
  state : EmergencyState
  navigatedTo : Option String
  geoReads : Nat
  posted : List AmbulancePayload
  deriving DecidableEq, Repr

/-- The handler `requestAmbulance`, run to completion against the outcome `geo` of
the geolocation read and the outcome `reply` of the POST. -/
def requestAmbulance (token userName : Option String) (geo : GeoOutcome)
    (reply : Reply AmbulanceRequest) (s : EmergencyState) : RequestResult :=
  if AIChat.idFalsy token then
    { state := s, navigatedTo := some "/login", geoReads := 0, posted := [] }
  else
    let s := { s with requesting := true }
    let pos := getPos geo
    let s := match reply with
      | .ok data => { s with ambulanceReq := some data }
      | .failed => s
    { state := { s with requesting := false }, navigatedTo := none,
      geoReads := if geo = GeoOutcome.absent then 0 else 1,
      posted := [buildPayload s.form userName pos] }

/-- The `onClick` handler of the button Request Another. -/
def requestAnother (s : EmergencyState) : EmergencyState :=
  { s with ambulanceReq := none }

/-- The state of the promise returned by an `async` handler. -/
inductive PromiseState where
  | fulfilled
  | rejected
  | pending
  deriving DecidableEq, Repr

/-- The promise returned by `requestAmbulance` once the geolocation read has
settled: the early return fulfils it, and so do both branches of the
`try`/`catch`, which swallows the rejection of the POST. -/
def requestAmbulancePromise (token : Option String) (reply : Reply AmbulanceRequest) :
    PromiseState :=
  if AIChat.idFalsy token then PromiseState.fulfilled
  else
    match reply with
    | .ok _ => PromiseState.fulfilled
    | .failed => PromiseState.fulfilled

/-- The handler `requestAmbulance` when the geolocation read it starts calls
neither callback (`getCurrentPosition` is given no timeout): the promise of
`getPos` stays unsettled and the handler does not get past `await getPos()`. -/
def requestAmbulanceAwaiting (token : Option String) (s : EmergencyState) :
    RequestResult × PromiseState :=
  if AIChat.idFalsy token then
    ({ state := s, navigatedTo := some "/login", geoReads := 0, posted := [] },
     PromiseState.fulfilled)
  else
    ({ state := { s with requesting := true }, navigatedTo := none, geoReads := 1,
       posted := [] },
     PromiseState.pending)

/-- Modelled from the spec: the ambulance service of the backend, which the page
only calls (`POST /ambulance/request`).  The service is described by the number
of request objects it has created so far. -/
structure AmbulanceService where
  created : Nat
  deriving DecidableEq, Repr

/-- Modelled from the spec: the handling of one submission by the ambulance
service of the backend.  Every submission creates a new request object, and no
two requests share an id: the id of the object is `mkId` of the number of
objects created before it, where `mkId` is the id generator of the service.
The status and the ETA are assigned by the server and are the parameters
`status` and `eta`. -/
def AmbulanceService.create (mkId : Nat → String) (status : String) (eta : ℚ)
    (svc : AmbulanceService) (body : AmbulancePayload) :
    AmbulanceRequest × AmbulanceService :=
  ({ id := some (mkId svc.created), status := status,
     emergency_type := body.emergency_type, eta_minutes := eta },
   { created := svc.created + 1 })

/-- One call of `requestAmbulance` answered by the modelled service: the service
creates a request object from the posted body, and the page receives it as
`res.data`.  Without a token nothing is posted and the service is not reached. -/
def submitTo (mkId : Nat → String) (status : String) (eta : ℚ)
    (token userName : Option String) (geo : GeoOutcome) (svc : AmbulanceService)
    (s : EmergencyState) : RequestResult × AmbulanceService :=
  if AIChat.idFalsy token then
    (requestAmbulance token userName geo Reply.failed s, svc)
  else
    (requestAmbulance token userName geo
       (Reply.ok (svc.create mkId status eta (buildPayload s.form userName (getPos geo))).1) s,
     (svc.create mkId status eta (buildPayload s.form userName (getPos geo))).2)

/-- Two requests in a row against the modelled service, with Request Another in
between: the state after the first answer, after Request Another, and after the
second answer. -/
def requestTwice (mkId : Nat → String) (status1 : String) (eta1 : ℚ) (status2 : String)
    (eta2 : ℚ) (token userName : Option String) (geo1 geo2 : GeoOutcome)
    (svc : AmbulanceService) (s : EmergencyState) :
    EmergencyState × EmergencyState × EmergencyState :=
  let first := submitTo mkId status1 eta1 token userName geo1 svc s
  let cleared := requestAnother first.1.state
  let second := submitTo mkId status2 eta2 token userName geo2 first.2 cleared
  (first.1.state, cleared, second.1.state)

/-- A server answer, used in examples. -/
def sampleAnswer : AmbulanceRequest :=
  { id := some "amb-1", status := "dispatched", emergency_type := "general", eta_minutes := 12 }

/-- An id generator that never repeats, used in examples. -/
def sampleId (n : Nat) : String := ⟨List.replicate (n + 1) 'r'⟩

end EmergencyPage

/-!
# Blood-pressure monitor (`frontend/src/pages/BPMonitor.js`)

Blood-pressure values are integers (`parseInt`); the bar height is computed in
exact rational arithmetic, rounding of the floating-point division is not
modelled.
-/

namespace BPMonitor

/-- An entry of `records`, as returned by `GET /bp/records`. -/
structure BPRecord where
  id : Option String
  systolic : Int
  diastolic : Int
  pulse : Option Int
  notes : Option String
  recorded_at : String
  status : String
  deriving DecidableEq, Repr

/-- The four severity categories, in increasing order of severity. -/
inductive Category where
  | low
  | normal
  | elevated
  | high
  deriving DecidableEq, Repr

/-- The position of a category in the severity ordering. -/
def Category.rank : Category → Nat
  | .low => 0
  | .normal => 1
  | .elevated => 2
  | .high => 3

/-- The string used for a category in the `status` field. -/
def Category.name : Category → String
  | .low => "low"
  | .normal => "normal"
  | .elevated => "elevated"
  | .high => "high"

/-- The higher-severity category of two. -/
def Category.max (a b : Category) : Category :=
  if a.rank ≤ b.rank then b else a

/-- The label of the entry of `colors` in `getStatusColor` for a category. -/
def Category.label : Category → String
  | .low => "Low"
  | .normal => "Normal"
  | .elevated => "Elevated"
  | .high => "High"

/-- Modelled from the spec: the category of a systolic value in the classifier
of the backend, which is not part of the client source. -/
def systolicCategory (systolic : Int) : Category :=
  if systolic < 90 then .low
  else if systolic ≤ 119 then .normal
  else if systolic ≤ 129 then .elevated
  else .high

/-- Modelled from the spec: the category of a diastolic value in the classifier
of the backend, which is not part of the client source. -/
def diastolicCategory (diastolic : Int) : Category :=
  if diastolic < 60 then .low
  else if diastolic ≤ 79 then .normal
  else if diastolic ≤ 89 then .elevated
  else .high

/-- Modelled from the spec: the classifier of the backend that derives the
`status` of a stored reading.  Each value is classified on its own and the
higher-severity category is taken. -/
def classify (systolic diastolic : Int) : Category :=
  Category.max (systolicCategory systolic) (diastolicCategory diastolic)

/-- The entries of the object `colors` of `getStatusColor`. -/
structure StatusStyle where
  bg : String
  text : String
  border : String
  label : String
  deriving DecidableEq, Repr

/-- The function `getStatusColor`: the entry of `colors` under the key `status`,
or the entry `normal` when there is none.  Keys inherited from the object
prototype are left out. -/
def getStatusColor (status : String) : StatusStyle :=
  if status = "low" then
    { bg := "bg-blue-50", text := "text-blue-700", border := "border-blue-200", label := "Low" }
  else if status = "normal" then
    { bg := "bg-emerald-50", text := "text-emerald-700", border := "border-emerald-200",
      label := "Normal" }
  else if status = "elevated" then
    { bg := "bg-amber-50", text := "text-amber-700", border := "border-amber-200",
      label := "Elevated" }
  else if status = "high" then
    { bg := "bg-red-50", text := "text-red-700", border := "border-red-200", label := "High" }
  else
    { bg := "bg-emerald-50", text := "text-emerald-700", border := "border-emerald-200",
      label := "Normal" }

/-- The status label shown for a record in the history list. -/
def statusShown (r : BPRecord) : String := (getStatusColor r.status).label

/-- The bar colour of the chart, `colors[r.status] || "bg-gray-300"`. -/
def barColor (status : String) : String :=
  if status = "low" then "bg-blue-400"
  else if status = "normal" then "bg-emerald-400"
  else if status = "elevated" then "bg-amber-400"
  else if status = "high" then "bg-red-400"
  else "bg-gray-300"

/-- The constant `maxSystolic`: `Math.max(...records.map(r => r.systolic), 180)`. -/
def maxSystolic (records : List BPRecord) : Int :=
  (records.map fun r => r.systolic).foldr max 180

/-- The local `height` of a bar: `(r.systolic / maxSystolic) * 100`. -/
def barHeight (records : List BPRecord) (r : BPRecord) : ℚ :=
  ((r.systolic : ℚ) / (maxSystolic records : ℚ)) * 100

/-- What one bar of the chart is drawn from. -/
structure ChartPoint where
  systolic : Int
  diastolic : Int
  status : String
  color : String
  height : ℚ
  deriving DecidableEq, Repr

/-- The callback of the `map` call of the chart. -/
def chartPoint (records : List BPRecord) (r : BPRecord) : ChartPoint :=
  { systolic := r.systolic, diastolic := r.diastolic, status := r.status,
    color := barColor r.status, height := barHeight records r }

/-- The expression `records.slice(0, 14).reverse()`: `slice` builds a new array and
`reverse` works in place on that new array.  The result is the pair of the
reversed copy and of the array `records` after the call. -/
def sliceReverse (records : List BPRecord) : List BPRecord × List BPRecord :=
  let copy := records.take 14
  let copy := copy.reverse
  (copy, records)

/-- The bars of the chart, left to right. -/
def chartPoints (records : List BPRecord) : List ChartPoint :=
  (sliceReverse records).1.map (chartPoint records)

/-- The validation attributes of an `<input type="number">`. -/
structure NumberInput where
  min : Option ℚ
  max : Option ℚ
  required : Bool
  deriving DecidableEq, Repr

/-- Constraint validation of a number input holding `value` (`none` when the
field is empty): a required field must be filled, the value must not be below
`min` nor above `max`, and with the default step 1 it must be a whole number of
steps away from `min` (from 0 when there is no `min`). -/
def NumberInput.valid (a : NumberInput) (value : Option ℚ) : Bool :=
  match value with
  | none => !a.required
  | some v =>
    (match a.min with
     | none => true
     | some m => decide (m ≤ v)) &&
    (match a.max with
     | none => true
     | some m => decide (v ≤ m)) &&
    (v - a.min.getD 0).isInt

/-- The attributes of the systolic field. -/
def systolicInput : NumberInput := { min := some 60, max := some 250, required := true }

/-- The attributes of the diastolic field. -/
def diastolicInput : NumberInput := { min := some 30, max := some 150, required := true }

/-- The attributes of the pulse field. -/
def pulseInput : NumberInput := { min := none, max := none, required := false }

/-- The form lets `onSubmit` run: every number field passes constraint validation. -/
def formAccepts (systolic diastolic pulse : Option ℚ) : Bool :=
  systolicInput.valid systolic && diastolicInput.valid diastolic && pulseInput.valid pulse

/-- Three readings, most recent first, used in examples. -/
def sampleRecords : List BPRecord :=
  [{ id := some "b3", systolic := 190, diastolic := 95, pulse := none, notes := none,
     recorded_at := "2026-01-03", status := "high" },
   { id := some "b2", systolic := 118, diastolic := 76, pulse := some 70, notes := none,
     recorded_at := "2026-01-02", status := "normal" },
   { id := some "b1", systolic := 85, diastolic := 55, pulse := none, notes := some "dizzy",
     recorded_at := "2026-01-01", status := "low" }]

end BPMonitor

namespace AIChat

/-! ## Facts about `trim` -/

theorem trim_data (t : String) :
    (trim t).data = (t.data.dropWhile isWhiteSpace).rdropWhile isWhiteSpace := rfl

theorem trim_data_eq_nil_iff (t : String) :
    (trim t).data = [] ↔ ∀ c ∈ t.data, isWhiteSpace c = true := by
  rw [trim_data, List.rdropWhile_eq_nil_iff]
  constructor
  · intro h
    by_cases hd : t.data.dropWhile isWhiteSpace = []
    · exact List.dropWhile_eq_nil_iff.mp hd
    · have h1 := List.head_dropWhile_not isWhiteSpace t.data hd
      have h2 := h _ (List.head_mem hd)
      simp [h1] at h2
  · intro h
    have hd : t.data.dropWhile isWhiteSpace = [] := List.dropWhile_eq_nil_iff.mpr h
    simp [hd]

theorem strFalsy_trim_iff (t : String) : strFalsy (trim t) = true ↔ isBlank t = true := by
  unfold strFalsy isBlank
  rw [List.isEmpty_iff, trim_data_eq_nil_iff, List.all_eq_true]

theorem trim_eq_empty_iff (t : String) : trim t = "" ↔ isBlank t = true := by
  rw [← strFalsy_trim_iff]
  unfold strFalsy
  rw [List.isEmpty_iff]
  constructor
  · intro h; rw [h]
  · intro h
    have : trim t = ⟨(trim t).data⟩ := rfl
    rw [this, h]

theorem strFalsy_eq_false_iff (t : String) : strFalsy t = false ↔ t ≠ "" := by
  unfold strFalsy
  constructor
  · intro h e; rw [e] at h; exact absurd h (by decide)
  · intro h
    cases hd : t.data with
    | nil => exact absurd (show t = "" from by
        have : t = ⟨t.data⟩ := rfl
        rw [this, hd]) h
    | cons a l => rfl

theorem trim_noOuterWhiteSpace (t : String) : noOuterWhiteSpace (trim t) := by
  intro c hc
  rw [trim_data] at hc
  rcases hc with hc | hc
  · obtain ⟨r, hr⟩ := List.rdropWhile_prefix isWhiteSpace
      (l := t.data.dropWhile isWhiteSpace)
    cases hq : (t.data.dropWhile isWhiteSpace).rdropWhile isWhiteSpace with
    | nil => rw [hq] at hc; simp at hc
    | cons a l =>
      rw [hq] at hc hr
      simp at hc
      subst hc
      have hne : t.data.dropWhile isWhiteSpace ≠ [] := by
        rw [← hr]; simp
      have h1 := List.head_dropWhile_not isWhiteSpace t.data hne
      have h2 : (t.data.dropWhile isWhiteSpace).head hne = a := by
        simp [← hr]
      rw [h2] at h1
      exact h1
  · by_cases hne : (t.data.dropWhile isWhiteSpace).rdropWhile isWhiteSpace = []
    · rw [hne] at hc; simp at hc
    · have h1 := List.rdropWhile_last_not isWhiteSpace _ hne
      rw [List.getLast?_eq_getLast _ hne] at hc
      simp at hc
      rw [hc] at h1
      simpa using h1

/-! ## The guard of `sendMessage` -/

theorem accepted_iff (s : ChatState) :
    accepted s ↔ (strFalsy (trim s.input) || s.sending) = false := by
  unfold accepted
  rw [Bool.or_eq_false_iff, strFalsy_eq_false_iff]

theorem sendMessage_of_accepted (now : String) (s : ChatState) (h : accepted s) :
    sendMessage now s =
      { s with
        messages := s.messages ++ [userMsg now s]
        input := ""
        sending := true
        inflight := s.inflight ++
          [{ message := trim s.input, language := s.language, session_id := s.sessionId }] } := by
  have hg := (accepted_iff s).mp h
  simp [sendMessage, hg, userMsg]

theorem sendMessage_of_sending (now : String) (s : ChatState) (h : s.sending = true) :
    sendMessage now s = s := by
  simp [sendMessage, h]

/-! ## Requests in flight -/

theorem flightInv_step (s : ChatState) (op : ChatOp) (h : flightInv s) :
    flightInv (step s op) := by
  unfold flightInv at *
  cases op with
  | welcome u now => simpa [step, welcome] using h
  | setInput t => simpa [step, setInput] using h
  | sendMessage now =>
    by_cases hg : (strFalsy (trim s.input) || s.sending) = true
    · simpa [step, sendMessage, hg] using h
    · have hs : s.sending = false := by
        cases hb : s.sending with
        | false => rfl
        | true => simp [hb] at hg
      simp [hs] at h
      simp [step, sendMessage, hg, h]
  | resolveSuccess sid r now =>
    cases hi : s.inflight with
    | nil => simpa [step, resolveSuccess, hi] using h
    | cons q rest =>
      cases hb : s.sending with
      | false => simp [hi, hb] at h
      | true =>
        simp [hi, hb] at h
        simp [step, resolveSuccess, hi, h]
  | resolveFailure now =>
    cases hi : s.inflight with
    | nil => simpa [step, resolveFailure, hi] using h
    | cons q rest =>
      cases hb : s.sending with
      | false => simp [hi, hb] at h
      | true =>
        simp [hi, hb] at h
        simp [step, resolveFailure, hi, h]
  | startNewChat now => simpa [step, startNewChat] using h
  | toggleLangPicker => simpa [step, toggleLangPicker] using h
  | setLanguage l => simpa [step, setLanguage] using h

theorem flightInv_run (ops : List ChatOp) (s : ChatState) (h : flightInv s) :
    flightInv (run s ops) := by
  induction ops generalizing s with
  | nil => exact h
  | cons op rest ih => exact ih (step s op) (flightInv_step s op h)

theorem flightInv_reachable (ops : List ChatOp) : flightInv (run initialState ops) :=
  flightInv_run ops initialState rfl

theorem inflight_nil_of_accepted (s : ChatState) (hi : flightInv s) (h : accepted s) :
    s.inflight = [] := by
  unfold flightInv at hi
  rw [h.2] at hi
  exact List.length_eq_zero.mp hi

theorem run_append (s : ChatState) (a b : List ChatOp) :
    run s (a ++ b) = run (run s a) b := by
  simp [run, List.foldl_append]

/-- While `sending` is set, steps other than a continuation keep it set. -/
theorem sending_run_of_no_resolve (mid : List ChatOp) (s : ChatState)
    (hs : s.sending = true) (hmid : ∀ op ∈ mid, op.isResolve = false) :
    (run s mid).sending = true := by
  induction mid generalizing s with
  | nil => exact hs
  | cons op rest ih =>
    have hop := hmid op (List.mem_cons_self _ _)
    refine ih (step s op) ?_ (fun o ho => hmid o (List.mem_cons_of_mem _ ho))
    cases op with
    | welcome u now => simpa [step, welcome] using hs
    | setInput t => simpa [step, setInput] using hs
    | sendMessage now => simpa [step, sendMessage_of_sending now s hs] using hs
    | resolveSuccess sid r now => simp [ChatOp.isResolve] at hop
    | resolveFailure now => simp [ChatOp.isResolve] at hop
    | startNewChat now => simpa [step, startNewChat] using hs
    | toggleLangPicker => simpa [step, toggleLangPicker] using hs
    | setLanguage l => simpa [step, setLanguage] using hs

/-- While `sending` is set, quiet steps change neither the transcript, the
session identifier, the flag, nor the requests in flight. -/
theorem run_quiet (mid : List ChatOp) (s : ChatState)
    (hs : s.sending = true) (hmid : ∀ op ∈ mid, op.isQuiet = true) :
    (run s mid).messages = s.messages ∧ (run s mid).sessionId = s.sessionId ∧
    (run s mid).sending = true ∧ (run s mid).inflight = s.inflight := by
  induction mid generalizing s with
  | nil => exact ⟨rfl, rfl, hs, rfl⟩
  | cons op rest ih =>
    have hop := hmid op (List.mem_cons_self _ _)
    have hstep : (step s op).messages = s.messages ∧ (step s op).sessionId = s.sessionId ∧
        (step s op).sending = true ∧ (step s op).inflight = s.inflight := by
      cases op with
      | welcome u now => simp [ChatOp.isQuiet] at hop
      | setInput t => exact ⟨rfl, rfl, hs, rfl⟩
      | sendMessage now =>
        rw [show step s (.sendMessage now) = s from sendMessage_of_sending now s hs]
        exact ⟨rfl, rfl, hs, rfl⟩
      | resolveSuccess sid r now => simp [ChatOp.isQuiet] at hop
      | resolveFailure now => simp [ChatOp.isQuiet] at hop
      | startNewChat now => simp [ChatOp.isQuiet] at hop
      | toggleLangPicker => exact ⟨rfl, rfl, hs, rfl⟩
      | setLanguage l => exact ⟨rfl, rfl, hs, rfl⟩
    obtain ⟨h1, h2, h3, h4⟩ := hstep
    obtain ⟨i1, i2, i3, i4⟩ := ih (step s op) h3 (fun o ho => hmid o (List.mem_cons_of_mem _ ho))
    exact ⟨i1.trans h1, i2.trans h2, i3, i4.trans h4⟩

theorem resolveSuccess_of_cons (sid : Option String) (resp now : String) (s : ChatState)
    (r : ChatRequest) (rest : List ChatRequest) (h : s.inflight = r :: rest) :
    resolveSuccess sid resp now s =
      { s with
        sessionId := if idFalsy r.session_id then sid else s.sessionId
        messages := s.messages ++
          [{ role := Role.assistant, content := resp, timestamp := now }]
        sending := false
        inflight := rest } := by
  simp [resolveSuccess, h]

theorem resolveFailure_of_cons (now : String) (s : ChatState)
    (r : ChatRequest) (rest : List ChatRequest) (h : s.inflight = r :: rest) :
    resolveFailure now s =
      { s with
        messages := s.messages ++
          [{ role := Role.assistant, content := apology, timestamp := now, error := true }]
        sending := false
        inflight := rest } := by
  simp [resolveFailure, h]

/-- A non-empty list of requests has an oldest element. -/
theorem exists_cons_of_append_singleton (l : List ChatRequest) (q : ChatRequest) :
    ∃ r rest, l ++ [q] = r :: rest := by
  cases l with
  | nil => exact ⟨q, [], rfl⟩
  | cons a t => exact ⟨a, t ++ [q], rfl⟩

/-- Steps other than a pick in the drop-down keep the selected language. -/
theorem language_run (mid : List ChatOp) (s : ChatState)
    (hmid : ∀ op ∈ mid, op.isSetLanguage = false) : (run s mid).language = s.language := by
  induction mid generalizing s with
  | nil => rfl
  | cons op rest ih =>
    have hop := hmid op (List.mem_cons_self _ _)
    have hstep : (step s op).language = s.language := by
      cases op with
      | welcome u now => rfl
      | setInput t => rfl
      | sendMessage now =>
        simp only [step, sendMessage]
        split <;> rfl
      | resolveSuccess sid r now =>
        simp only [step, resolveSuccess]
        split <;> rfl
      | resolveFailure now =>
        simp only [step, resolveFailure]
        split <;> rfl
      | startNewChat now => rfl
      | toggleLangPicker => rfl
      | setLanguage l => simp [ChatOp.isSetLanguage] at hop
    exact (ih (step s op) (fun o ho => hmid o (List.mem_cons_of_mem _ ho))).trans hstep

theorem userMessageOk_step (s : ChatState) (op : ChatOp)
    (h : ∀ m ∈ s.messages, userMessageOk m) : ∀ m ∈ (step s op).messages, userMessageOk m := by
  have hassist : ∀ m : ChatMessage, m.role = Role.assistant → userMessageOk m := by
    intro m hm hu
    rw [hm] at hu
    exact absurd hu (by decide)
  cases op with
  | welcome u now =>
    intro m hm
    simp only [step, welcome, List.mem_singleton] at hm
    exact hassist m (by rw [hm])
  | setInput t => exact h
  | sendMessage now =>
    by_cases hacc : accepted s
    · intro m hm
      rw [show step s (.sendMessage now) = sendMessage now s from rfl,
        sendMessage_of_accepted now s hacc] at hm
      simp only [List.mem_append, List.mem_singleton] at hm
      rcases hm with hm | hm
      · exact h m hm
      · intro _
        rw [hm]
        exact ⟨hacc.1, trim_noOuterWhiteSpace s.input⟩
    · have hg : (strFalsy (trim s.input) || s.sending) = true := by
        cases hb : (strFalsy (trim s.input) || s.sending) with
        | true => rfl
        | false => exact absurd ((accepted_iff s).mpr hb) hacc
      simpa [step, sendMessage, hg] using h
  | resolveSuccess sid r now =>
    cases hi : s.inflight with
    | nil => simpa [step, resolveSuccess, hi] using h
    | cons q rest =>
      intro m hm
      rw [show step s (.resolveSuccess sid r now) = resolveSuccess sid r now s from rfl,
        resolveSuccess_of_cons sid r now s q rest hi] at hm
      simp only [List.mem_append, List.mem_singleton] at hm
      rcases hm with hm | hm
      · exact h m hm
      · exact hassist m (by rw [hm])
  | resolveFailure now =>
    cases hi : s.inflight with
    | nil => simpa [step, resolveFailure, hi] using h
    | cons q rest =>
      intro m hm
      rw [show step s (.resolveFailure now) = resolveFailure now s from rfl,
        resolveFailure_of_cons now s q rest hi] at hm
      simp only [List.mem_append, List.mem_singleton] at hm
      rcases hm with hm | hm
      · exact h m hm
      · exact hassist m (by rw [hm])
  | startNewChat now =>
    intro m hm
    simp only [step, startNewChat, List.mem_singleton] at hm
    exact hassist m (by rw [hm]; rfl)
  | toggleLangPicker => exact h
  | setLanguage l => exact h

theorem userMessageOk_run (ops : List ChatOp) (s : ChatState)
    (h : ∀ m ∈ s.messages, userMessageOk m) : ∀ m ∈ (run s ops).messages, userMessageOk m := by
  induction ops generalizing s with
  | nil => exact h
  | cons op rest ih => exact ih (step s op) (userMessageOk_step s op h)

/-! ## Claims about the chat session -/

/-- C1. `sendMessage` is a no-op when the input text is empty or made of white
space only, or when `sending` is already set: the whole state (transcript,
session identifier, flag, input, requests posted) is returned unchanged. -/
theorem sendMessage_rejected (now : String) (s : ChatState)
    (h : isBlank s.input = true ∨ s.sending = true) : sendMessage now s = s := by
  have hg : (strFalsy (trim s.input) || s.sending) = true := by
    rcases h with h | h
    · simp [(strFalsy_trim_iff s.input).mpr h]
    · simp [h]
  simp [sendMessage, hg]

/-- A blank input is rejected and the state is returned as it was. -/
theorem sendMessage_rejected_witness :
    (isBlank " \t\n" = true ∨ false = true) ∧
    sendMessage "t1"
      { messages := [seedMsg "t0"], input := " \t\n", language := "Hindi",
        sessionId := some "s-1", sending := false, showLangPicker := false, inflight := [] } =
      { messages := [seedMsg "t0"], input := " \t\n", language := "Hindi",
        sessionId := some "s-1", sending := false, showLangPicker := false, inflight := [] } :=
  ⟨by decide, sendMessage_rejected "t1" _ (Or.inl (by decide))⟩

/-- C2. In every state reached from the initial state, at most one request is
in flight and `sending` is set exactly when one request is in flight; and after
an accepted send, as long as no continuation has run, a further call of
`sendMessage` changes nothing. -/
theorem at_most_one_in_flight (ops : List ChatOp) :
    (run initialState ops).inflight.length ≤ 1 ∧
    ((run initialState ops).sending = true ↔ (run initialState ops).inflight.length = 1) ∧
    ∀ (now1 now2 : String) (mid : List ChatOp),
      accepted (run initialState ops) → (∀ op ∈ mid, op.isResolve = false) →
      sendMessage now2 (run (sendMessage now1 (run initialState ops)) mid) =
        run (sendMessage now1 (run initialState ops)) mid := by
  have hi := flightInv_reachable ops
  unfold flightInv at hi
  refine ⟨?_, ?_, ?_⟩
  · rw [hi]; split <;> simp
  · rw [hi]; cases (run initialState ops).sending <;> simp
  · intro now1 now2 mid hacc hmid
    apply sendMessage_of_sending
    apply sending_run_of_no_resolve mid _ _ hmid
    rw [sendMessage_of_accepted now1 _ hacc]

/-- A second send, typed while the first is in flight, changes nothing. -/
theorem at_most_one_in_flight_witness :
    accepted (run initialState [.welcome (some "Asha") "t0", .setInput "fever"]) ∧
    sendMessage "t2"
        (run (sendMessage "t1" (run initialState [.welcome (some "Asha") "t0", .setInput "fever"]))
          [.setInput "cough"]) =
      run (sendMessage "t1" (run initialState [.welcome (some "Asha") "t0", .setInput "fever"]))
        [.setInput "cough"] :=
  ⟨by decide,
   (at_most_one_in_flight [.welcome (some "Asha") "t0", .setInput "fever"]).2.2 "t1" "t2"
     [.setInput "cough"] (by decide) (by decide)⟩

/-- C3. An accepted `sendMessage` (input not blank, `sending` not set) has, before
the request resolves, appended exactly one user message carrying the trimmed
text to the end of the previous transcript and set `sending`; the request is
then in flight. -/
theorem sendMessage_appends_user_message (now : String) (s : ChatState) (h : accepted s) :
    (sendMessage now s).messages =
      s.messages ++ [{ role := Role.user, content := trim s.input, timestamp := now }] ∧
    (sendMessage now s).sending = true ∧
    (sendMessage now s).inflight =
      s.inflight ++
        [{ message := trim s.input, language := s.language, session_id := s.sessionId }] := by
  rw [sendMessage_of_accepted now s h]
  exact ⟨rfl, rfl, rfl⟩

/-- The text typed with outer white space is appended trimmed. -/
theorem sendMessage_appends_user_message_witness :
    accepted (run initialState [.welcome none "t0", .setInput "  chest pain \n"]) ∧
    (sendMessage "t1" (run initialState [.welcome none "t0", .setInput "  chest pain \n"])).messages =
      (run initialState [.welcome none "t0", .setInput "  chest pain \n"]).messages ++
        [{ role := Role.user, content := "chest pain", timestamp := "t1" }] :=
  ⟨by decide,
   (sendMessage_appends_user_message "t1"
     (run initialState [.welcome none "t0", .setInput "  chest pain \n"]) (by decide)).1⟩

/-- C4. After an accepted send whose request succeeds with nothing in between,
the transcript is the previous transcript, then the user message, then an
assistant message without the error flag whose content is the server's
response; the length grew by exactly 2 and `sending` is cleared. -/
theorem exchange_success (now1 now2 : String) (sid : Option String) (resp : String)
    (s : ChatState) (h : accepted s) :
    (resolveSuccess sid resp now2 (sendMessage now1 s)).messages =
      s.messages ++
        [{ role := Role.user, content := trim s.input, timestamp := now1, error := false },
         { role := Role.assistant, content := resp, timestamp := now2, error := false }] ∧
    (resolveSuccess sid resp now2 (sendMessage now1 s)).messages.length =
      s.messages.length + 2 ∧
    (resolveSuccess sid resp now2 (sendMessage now1 s)).sending = false := by
  obtain ⟨r, rest, hr⟩ := exists_cons_of_append_singleton s.inflight
    { message := trim s.input, language := s.language, session_id := s.sessionId }
  have hi : (sendMessage now1 s).inflight = r :: rest := by
    rw [sendMessage_of_accepted now1 s h]; exact hr
  rw [resolveSuccess_of_cons sid resp now2 _ r rest hi, sendMessage_of_accepted now1 s h]
  refine ⟨?_, ?_, rfl⟩
  · simp [userMsg]
  · simp

/-- One successful exchange on top of the greeting. -/
theorem exchange_success_witness :
    accepted (run initialState [.welcome (some "Asha") "t0", .setInput " fever "]) ∧
    (resolveSuccess (some "s-1") "Drink water" "t2"
      (sendMessage "t1"
        (run initialState [.welcome (some "Asha") "t0", .setInput " fever "]))).messages =
      (run initialState [.welcome (some "Asha") "t0", .setInput " fever "]).messages ++
        [{ role := Role.user, content := "fever", timestamp := "t1", error := false },
         { role := Role.assistant, content := "Drink water", timestamp := "t2",
           error := false }] :=
  ⟨by decide,
   (exchange_success "t1" "t2" (some "s-1") "Drink water"
     (run initialState [.welcome (some "Asha") "t0", .setInput " fever "]) (by decide)).1⟩

/-- C5. After an accepted send whose request fails (typing, language picks and
further calls of `sendMessage` may happen while it is in flight), the transcript
is the previous transcript, then the user message, then one assistant message
flagged as an error that carries the fixed apology; the length grew by exactly
2, `sessionId` is unchanged and `sending` is cleared. -/
theorem exchange_failure (now1 now2 : String) (mid : List ChatOp) (s : ChatState)
    (h : accepted s) (hmid : ∀ op ∈ mid, op.isQuiet = true) :
    (resolveFailure now2 (run (sendMessage now1 s) mid)).messages =
      s.messages ++
        [{ role := Role.user, content := trim s.input, timestamp := now1, error := false },
         { role := Role.assistant, content := apology, timestamp := now2, error := true }] ∧
    (resolveFailure now2 (run (sendMessage now1 s) mid)).messages.length =
      s.messages.length + 2 ∧
    (resolveFailure now2 (run (sendMessage now1 s) mid)).sessionId = s.sessionId ∧
    (resolveFailure now2 (run (sendMessage now1 s) mid)).sending = false := by
  have hsend := sendMessage_of_accepted now1 s h
  have hs : (sendMessage now1 s).sending = true := by rw [hsend]
  obtain ⟨q1, q2, _, q4⟩ := run_quiet mid (sendMessage now1 s) hs hmid
  obtain ⟨r, rest, hr⟩ := exists_cons_of_append_singleton s.inflight
    { message := trim s.input, language := s.language, session_id := s.sessionId }
  have hi : (run (sendMessage now1 s) mid).inflight = r :: rest := by
    rw [q4, hsend]; exact hr
  rw [resolveFailure_of_cons now2 _ r rest hi]
  have hm : (run (sendMessage now1 s) mid).messages = s.messages ++ [userMsg now1 s] := by
    rw [q1, hsend]
  have hid : (run (sendMessage now1 s) mid).sessionId = s.sessionId := by
    rw [q2, hsend]
  refine ⟨?_, ?_, hid, rfl⟩
  · simp [hm, userMsg]
  · simp [hm]

/-- One failed exchange on top of the greeting, with typing and a language pick in between. -/
theorem exchange_failure_witness :
    accepted (run initialState [.welcome (some "Asha") "t0", .setInput " fever "]) ∧
    (∀ op ∈ [ChatOp.setInput "and cough", ChatOp.setLanguage "Tamil"], op.isQuiet = true) ∧
    (resolveFailure "t2"
      (run (sendMessage "t1"
          (run initialState [.welcome (some "Asha") "t0", .setInput " fever "]))
        [.setInput "and cough", .setLanguage "Tamil"])).messages =
      (run initialState [.welcome (some "Asha") "t0", .setInput " fever "]).messages ++
        [{ role := Role.user, content := "fever", timestamp := "t1", error := false },
         { role := Role.assistant, content := apology, timestamp := "t2", error := true }] :=
  ⟨by decide, by decide,
   (exchange_failure "t1" "t2" [.setInput "and cough", .setLanguage "Tamil"]
     (run initialState [.welcome (some "Asha") "t0", .setInput " fever "])
     (by decide) (by decide)).1⟩

/-- C6. For a successful exchange started in a reachable state (typing, language
picks and further calls of `sendMessage` may happen while it is in flight): if
the session had no identifier when the send was issued, `sessionId` becomes the
identifier returned by the server; if it had one, `sessionId` is still that
identifier, whatever the server returned.  A session has an identifier when
`sessionId` is truthy, which is the test `!sessionId` made by the source. -/
theorem session_id_adopted_once (ops mid : List ChatOp) (now1 now2 : String)
    (sid : Option String) (resp : String)
    (h : accepted (run initialState ops)) (hmid : ∀ op ∈ mid, op.isQuiet = true) :
    (idFalsy (run initialState ops).sessionId = true →
      (resolveSuccess sid resp now2
        (run (sendMessage now1 (run initialState ops)) mid)).sessionId = sid) ∧
    (idFalsy (run initialState ops).sessionId = false →
      (resolveSuccess sid resp now2
        (run (sendMessage now1 (run initialState ops)) mid)).sessionId =
        (run initialState ops).sessionId) := by
  have hnil := inflight_nil_of_accepted _ (flightInv_reachable ops) h
  have hsend := sendMessage_of_accepted now1 _ h
  have hs : (sendMessage now1 (run initialState ops)).sending = true := by rw [hsend]
  obtain ⟨_, q2, _, q4⟩ := run_quiet mid _ hs hmid
  have hi : (run (sendMessage now1 (run initialState ops)) mid).inflight =
      [{ message := trim (run initialState ops).input,
         language := (run initialState ops).language,
         session_id := (run initialState ops).sessionId }] := by
    rw [q4, hsend, hnil]; rfl
  have hid : (run (sendMessage now1 (run initialState ops)) mid).sessionId =
      (run initialState ops).sessionId := by
    rw [q2, hsend]
  rw [resolveSuccess_of_cons sid resp now2 _ _ [] hi]
  constructor
  · intro hf; simp [hf]
  · intro hf; simp [hf, hid]

/-- The second exchange of a session keeps the identifier adopted by the first. -/
theorem session_id_adopted_once_witness :
    accepted (run initialState
      [.setInput "fever", .sendMessage "t1", .resolveSuccess (some "s-1") "Rest" "t2",
       .setInput "still fever"]) ∧
    (resolveSuccess (some "s-2") "See a doctor" "t4"
      (run (sendMessage "t3" (run initialState
        [.setInput "fever", .sendMessage "t1", .resolveSuccess (some "s-1") "Rest" "t2",
         .setInput "still fever"])) [])).sessionId = some "s-1" :=
  ⟨by decide,
   (session_id_adopted_once
     [.setInput "fever", .sendMessage "t1", .resolveSuccess (some "s-1") "Rest" "t2",
      .setInput "still fever"] [] "t3" "t4" (some "s-2") "See a doctor"
     (by decide) (by decide)).2 (by decide)⟩

/-- C7. From any prior state, `startNewChat` yields a transcript made of exactly
one message, the assistant-role seed message, and a null `sessionId`. -/
theorem startNewChat_resets (now : String) (s : ChatState) :
    (startNewChat now s).messages =
      [{ role := Role.assistant, content := seedContent, timestamp := now, error := false }] ∧
    (startNewChat now s).messages.length = 1 ∧
    (startNewChat now s).sessionId = none :=
  ⟨rfl, rfl, rfl⟩

/-- C8, as stated, fails: a send, then `startNewChat` while the request is in
flight, then the successful response.  The reply is appended after the seed
message and the server's identifier is adopted. -/
theorem late_response_not_discarded :
    (run initialState
      [.welcome (some "Asha") "t0", .setInput "fever", .sendMessage "t1",
       .startNewChat "t2", .resolveSuccess (some "s-1") "Drink water" "t3"]).messages =
      [seedMsg "t2",
       { role := Role.assistant, content := "Drink water", timestamp := "t3" }] ∧
    (run initialState
      [.welcome (some "Asha") "t0", .setInput "fever", .sendMessage "t1",
       .startNewChat "t2", .resolveSuccess (some "s-1") "Drink water" "t3"]).messages ≠
      [seedMsg "t2"] ∧
    (run initialState
      [.welcome (some "Asha") "t0", .setInput "fever", .sendMessage "t1",
       .startNewChat "t2", .resolveSuccess (some "s-1") "Drink water" "t3"]).sessionId ≠
      none := by
  decide

/-- C8, amended. When a send is issued from a reachable state, `startNewChat` is
invoked while the request is in flight and the response arrives afterwards
(typing, language picks and further calls of `sendMessage` may happen in
between), the late response is applied to the reset state.  On success the
transcript is the seed message followed by the assistant reply, and `sessionId`
is the server's identifier if the send was issued without one and null
otherwise.  On failure the transcript is the seed message followed by the
apology and `sessionId` is null.  In both cases `sending` is cleared. -/
theorem late_response_applied_after_reset (ops mid1 mid2 : List ChatOp)
    (now1 now2 now3 : String) (sid : Option String) (resp : String)
    (h : accepted (run initialState ops))
    (h1 : ∀ op ∈ mid1, op.isQuiet = true) (h2 : ∀ op ∈ mid2, op.isQuiet = true) :
    (resolveSuccess sid resp now3
      (run (startNewChat now2 (run (sendMessage now1 (run initialState ops)) mid1))
        mid2)).messages =
      [seedMsg now2, { role := Role.assistant, content := resp, timestamp := now3 }] ∧
    (resolveSuccess sid resp now3
      (run (startNewChat now2 (run (sendMessage now1 (run initialState ops)) mid1))
        mid2)).sessionId =
      (if idFalsy (run initialState ops).sessionId then sid else none) ∧
    (resolveSuccess sid resp now3
      (run (startNewChat now2 (run (sendMessage now1 (run initialState ops)) mid1))
        mid2)).sending = false ∧
    (resolveFailure now3
      (run (startNewChat now2 (run (sendMessage now1 (run initialState ops)) mid1))
        mid2)).messages =
      [seedMsg now2,
       { role := Role.assistant, content := apology, timestamp := now3, error := true }] ∧
    (resolveFailure now3
      (run (startNewChat now2 (run (sendMessage now1 (run initialState ops)) mid1))
        mid2)).sessionId = none ∧
    (resolveFailure now3
      (run (startNewChat now2 (run (sendMessage now1 (run initialState ops)) mid1))
        mid2)).sending = false := by
  have hnil := inflight_nil_of_accepted _ (flightInv_reachable ops) h
  have hsend := sendMessage_of_accepted now1 _ h
  have hs : (sendMessage now1 (run initialState ops)).sending = true := by rw [hsend]
  obtain ⟨_, _, p3, p4⟩ := run_quiet mid1 _ hs h1
  have hs2 : (startNewChat now2
      (run (sendMessage now1 (run initialState ops)) mid1)).sending = true := p3
  obtain ⟨q1, q2, _, q4⟩ := run_quiet mid2 _ hs2 h2
  have hi : (run (startNewChat now2 (run (sendMessage now1 (run initialState ops)) mid1))
      mid2).inflight =
      [{ message := trim (run initialState ops).input,
         language := (run initialState ops).language,
         session_id := (run initialState ops).sessionId }] := by
    rw [q4]
    show (run (sendMessage now1 (run initialState ops)) mid1).inflight = _
    rw [p4, hsend, hnil]; rfl
  have hm : (run (startNewChat now2 (run (sendMessage now1 (run initialState ops)) mid1))
      mid2).messages = [seedMsg now2] := by rw [q1]; rfl
  have hid : (run (startNewChat now2 (run (sendMessage now1 (run initialState ops)) mid1))
      mid2).sessionId = none := by rw [q2]; rfl
  rw [resolveSuccess_of_cons sid resp now3 _ _ [] hi, resolveFailure_of_cons now3 _ _ [] hi]
  refine ⟨?_, ?_, rfl, ?_, hid, rfl⟩
  · simp [hm]
  · simp [hid]
  · simp [hm]

/-- A failure that arrives after a reset is appended after the seed message. -/
theorem late_response_applied_after_reset_witness :
    accepted (run initialState [.welcome (some "Asha") "t0", .setInput "fever"]) ∧
    (resolveFailure "t3"
      (run (startNewChat "t2"
          (run (sendMessage "t1"
            (run initialState [.welcome (some "Asha") "t0", .setInput "fever"]))
            [.setInput "cough"]))
        [.setLanguage "Hindi"])).messages =
      [seedMsg "t2",
       { role := Role.assistant, content := apology, timestamp := "t3", error := true }] :=
  ⟨by decide,
   (late_response_applied_after_reset [.welcome (some "Asha") "t0", .setInput "fever"]
     [.setInput "cough"] [.setLanguage "Hindi"] "t1" "t2" "t3" none ""
     (by decide) (by decide) (by decide)).2.2.2.1⟩

/-- C9. Picking a language sets the `language` field and closes the drop-down,
and nothing else: the transcript, `sessionId`, `sending`, the input and the
requests in flight (each with the language it was issued with) are unchanged.
The next accepted send, after any steps other than another pick, posts a request
carrying the newly selected language. -/
theorem setLanguage_only_changes_language (lang : String) (s : ChatState) :
    setLanguage lang s = { s with language := lang, showLangPicker := false } ∧
    (setLanguage lang s).messages = s.messages ∧
    (setLanguage lang s).sessionId = s.sessionId ∧
    (setLanguage lang s).sending = s.sending ∧
    (setLanguage lang s).inflight = s.inflight ∧
    ∀ (mid : List ChatOp) (now : String),
      (∀ op ∈ mid, op.isSetLanguage = false) →
      accepted (run (setLanguage lang s) mid) →
      (sendMessage now (run (setLanguage lang s) mid)).inflight =
        (run (setLanguage lang s) mid).inflight ++
          [{ message := trim (run (setLanguage lang s) mid).input, language := lang,
             session_id := (run (setLanguage lang s) mid).sessionId }] := by
  refine ⟨rfl, rfl, rfl, rfl, rfl, ?_⟩
  intro mid now hmid hacc
  rw [sendMessage_of_accepted now _ hacc, language_run mid _ hmid]
  rfl

/-- A send issued after picking Hindi posts a request in Hindi. -/
theorem setLanguage_only_changes_language_witness :
    (∀ op ∈ [ChatOp.setInput "jwar"], op.isSetLanguage = false) ∧
    accepted (run (setLanguage "Hindi" initialState) [.setInput "jwar"]) ∧
    (sendMessage "t1" (run (setLanguage "Hindi" initialState) [.setInput "jwar"])).inflight =
      (run (setLanguage "Hindi" initialState) [.setInput "jwar"]).inflight ++
        [{ message := trim (run (setLanguage "Hindi" initialState) [.setInput "jwar"]).input,
           language := "Hindi",
           session_id := (run (setLanguage "Hindi" initialState) [.setInput "jwar"]).sessionId }] :=
  ⟨by decide, by decide,
   (setLanguage_only_changes_language "Hindi" initialState).2.2.2.2.2 [.setInput "jwar"] "t1"
     (by decide) (by decide)⟩

/-- C10. In every state reached from the initial state, every user-role message
of the transcript has non-empty content whose first and last characters are
not white space. -/
theorem user_messages_trimmed (ops : List ChatOp) (m : ChatMessage)
    (hm : m ∈ (run initialState ops).messages) (hu : m.role = Role.user) :
    m.content ≠ "" ∧
    ∀ c, m.content.data.head? = some c ∨ m.content.data.getLast? = some c →
      isWhiteSpace c = false :=
  userMessageOk_run ops initialState (by intro m hm; simp [initialState] at hm) m hm hu

/-- The user message of a short run is trimmed and not empty. -/
theorem user_messages_trimmed_witness :
    ({ role := Role.user, content := "chest pain", timestamp := "t1" } : ChatMessage) ∈
      (run initialState
        [.welcome none "t0", .setInput "\t chest pain \n", .sendMessage "t1"]).messages ∧
    ("chest pain" ≠ "" ∧
      ∀ c, "chest pain".data.head? = some c ∨ "chest pain".data.getLast? = some c →
        isWhiteSpace c = false) :=
  ⟨by decide,
   user_messages_trimmed
     [.welcome none "t0", .setInput "\t chest pain \n", .sendMessage "t1"]
     { role := Role.user, content := "chest pain", timestamp := "t1" } (by decide) rfl⟩

/-- A step that is not a seeding step only appends to the transcript. -/
theorem prefix_step (s : ChatState) (op : ChatOp) (h : op.isSeed = false) :
    s.messages <+: (step s op).messages := by
  cases op with
  | welcome u now => simp [ChatOp.isSeed] at h
  | setInput t => exact List.prefix_refl _
  | sendMessage now =>
    simp only [step, sendMessage]
    split
    · exact List.prefix_refl _
    · exact List.prefix_append _ _
  | resolveSuccess sid r now =>
    simp only [step, resolveSuccess]
    split
    · exact List.prefix_refl _
    · exact List.prefix_append _ _
  | resolveFailure now =>
    simp only [step, resolveFailure]
    split
    · exact List.prefix_refl _
    · exact List.prefix_append _ _
  | startNewChat now => simp [ChatOp.isSeed] at h
  | toggleLangPicker => exact List.prefix_refl _
  | setLanguage l => exact List.prefix_refl _

theorem prefix_run (ops : List ChatOp) (s : ChatState) (h : ∀ op ∈ ops, op.isSeed = false) :
    s.messages <+: (run s ops).messages := by
  induction ops generalizing s with
  | nil => exact List.prefix_refl _
  | cons op rest ih =>
    exact (prefix_step s op (h op (List.mem_cons_self _ _))).trans
      (ih (step s op) (fun o ho => h o (List.mem_cons_of_mem _ ho)))

/-- C11. Apart from the seeding steps (`startNewChat`, and the welcome effect
that seeds the greeting), every chat step is append-only: after any run of
accepted or rejected sends, successful or failed responses, language picks and
typing, the previous transcript is a prefix of the new one, and every earlier
message is still at its position, unchanged. -/
theorem transcript_append_only (ops : List ChatOp) (s : ChatState)
    (h : ∀ op ∈ ops, op.isSeed = false) :
    s.messages <+: (run s ops).messages ∧
    ∀ i, i < s.messages.length → (run s ops).messages[i]? = s.messages[i]? := by
  have hp := prefix_run ops s h
  refine ⟨hp, ?_⟩
  intro i hi
  obtain ⟨t, ht⟩ := hp
  rw [← ht, List.getElem?_append_left hi]

/-- A send, its successful response and a language pick leave the greeting in
place at the head of the transcript. -/
theorem transcript_append_only_witness :
    (∀ op ∈ [ChatOp.sendMessage "t1", ChatOp.setLanguage "Tamil",
        ChatOp.resolveSuccess (some "s-1") "Rest" "t2"], op.isSeed = false) ∧
    (run initialState [.welcome none "t0", .setInput "fever"]).messages <+:
      (run (run initialState [.welcome none "t0", .setInput "fever"])
        [.sendMessage "t1", .setLanguage "Tamil",
         .resolveSuccess (some "s-1") "Rest" "t2"]).messages :=
  ⟨by decide,
   (transcript_append_only
     [.sendMessage "t1", .setLanguage "Tamil", .resolveSuccess (some "s-1") "Rest" "t2"]
     (run initialState [.welcome none "t0", .setInput "fever"]) (by decide)).1⟩

end AIChat

namespace HospitalFinder

open Geolocation

/-! ## Facts about the filter effect -/

theorem includes_iff (s sub : String) : includes s sub = true ↔ sub.data <:+: s.data := by
  unfold includes
  rw [List.any_eq_true, List.infix_iff_prefix_suffix]
  constructor
  · rintro ⟨t, ht, hp⟩
    exact ⟨t, List.isPrefixOf_iff_prefix.mp hp, (List.mem_tails t s.data).mp ht⟩
  · rintro ⟨t, hp, hs⟩
    exact ⟨t, (List.mem_tails t s.data).mpr hs, List.isPrefixOf_iff_prefix.mpr hp⟩

theorem matchesSearch_iff (lower : String → String) (search : String) (h : Hospital) :
    matchesSearch lower search h = true ↔
      ((lower search).data <:+: (lower h.name).data ∨
       (lower search).data <:+: (lower h.city).data ∨
       ∃ sp, h.specialties = some sp ∧ ∃ t ∈ sp, (lower search).data <:+: (lower t).data) := by
  unfold matchesSearch
  rw [Bool.or_eq_true, Bool.or_eq_true, includes_iff, includes_iff, or_assoc]
  refine or_congr Iff.rfl (or_congr Iff.rfl ?_)
  cases hs : h.specialties with
  | none => simp
  | some sp =>
    simp only [List.any_eq_true, includes_iff, Option.some.injEq, exists_eq_left']

theorem keeps_iff (lower : String → String) (search filterType : String)
    (showAmbulanceOnly : Bool) (h : Hospital) :
    keeps lower search filterType showAmbulanceOnly h = true ↔
      passes lower search filterType showAmbulanceOnly h := by
  unfold keeps passes
  rw [Bool.and_eq_true, Bool.and_eq_true, Bool.or_eq_true, Bool.or_eq_true, Bool.or_eq_true,
    matchesSearch_iff, beq_iff_eq, beq_iff_eq, and_assoc]
  refine and_congr (or_congr ?_ Iff.rfl) (and_congr Iff.rfl (or_congr ?_ Iff.rfl))
  · constructor
    · intro hf
      by_contra hne
      have := (AIChat.strFalsy_eq_false_iff search).mpr hne
      rw [hf] at this
      exact absurd this (by decide)
    · intro he; rw [he]; rfl
  · cases showAmbulanceOnly <;> simp

theorem searchStage_eq_filter (lower : String → String) (search : String) (l : List Hospital) :
    searchStage lower search l =
      l.filter (fun h => AIChat.strFalsy search || matchesSearch lower search h) := by
  unfold searchStage
  cases AIChat.strFalsy search <;> simp

theorem typeStage_eq_filter (filterType : String) (l : List Hospital) :
    typeStage filterType l = l.filter (fun h => filterType == "all" || h.type == filterType) := by
  unfold typeStage
  by_cases hf : filterType = "all"
  · simp [hf]
  · have hb : (filterType == "all") = false := by simpa using hf
    simp [hf, hb]

theorem ambulanceStage_eq_filter (showAmbulanceOnly : Bool) (l : List Hospital) :
    ambulanceStage showAmbulanceOnly l = l.filter (fun h => !showAmbulanceOnly || h.ambulance) := by
  unfold ambulanceStage
  cases showAmbulanceOnly <;> simp

theorem applyFilters_eq_stages (lower : String → String) (search filterType : String)
    (showAmbulanceOnly : Bool) (l : List Hospital) :
    applyFilters lower search filterType showAmbulanceOnly l =
      ambulanceStage showAmbulanceOnly (typeStage filterType (searchStage lower search l)) := rfl

theorem applyFilters_eq_filter (lower : String → String) (search filterType : String)
    (showAmbulanceOnly : Bool) (l : List Hospital) :
    applyFilters lower search filterType showAmbulanceOnly l =
      l.filter (keeps lower search filterType showAmbulanceOnly) := by
  rw [applyFilters_eq_stages, searchStage_eq_filter, typeStage_eq_filter,
    ambulanceStage_eq_filter, List.filter_filter, List.filter_filter]
  apply List.filter_congr
  intro h _
  unfold keeps
  cases (AIChat.strFalsy search || matchesSearch lower search h) <;>
    cases (filterType == "all" || h.type == filterType) <;>
    cases (!showAmbulanceOnly || h.ambulance) <;> rfl

/-! ## Claims about the hospital filter -/

/-- C12. A hospital appears in the filtered view if and only if it is in the
catalog and meets all three conditions: the search text is empty or its
lower-cased form occurs in the lower-cased name, city or some specialty; the type
filter is "all" or equals the hospital's type; the ambulance toggle is off or the
hospital has an ambulance. -/
theorem mem_filtered_iff (lower : String → String) (s : FinderState) (h : Hospital) :
    h ∈ (filterEffect lower s).filtered ↔
      h ∈ s.hospitals ∧
      (s.search = "" ∨
        (lower s.search).data <:+: (lower h.name).data ∨
        (lower s.search).data <:+: (lower h.city).data ∨
        ∃ sp, h.specialties = some sp ∧
          ∃ t ∈ sp, (lower s.search).data <:+: (lower t).data) ∧
      (s.filterType = "all" ∨ h.type = s.filterType) ∧
      (s.showAmbulanceOnly = false ∨ h.ambulance = true) := by
  unfold filterEffect
  rw [applyFilters_eq_filter, List.mem_filter, keeps_iff]
  rfl

/-- C13. The three filter stages commute: composed in any of the six orders they
give the list computed by the filter effect. -/
theorem filter_stages_commute (lower : String → String) (search filterType : String)
    (amb : Bool) (l : List Hospital) :
    ambulanceStage amb (searchStage lower search (typeStage filterType l)) =
      applyFilters lower search filterType amb l ∧
    typeStage filterType (ambulanceStage amb (searchStage lower search l)) =
      applyFilters lower search filterType amb l ∧
    typeStage filterType (searchStage lower search (ambulanceStage amb l)) =
      applyFilters lower search filterType amb l ∧
    searchStage lower search (ambulanceStage amb (typeStage filterType l)) =
      applyFilters lower search filterType amb l ∧
    searchStage lower search (typeStage filterType (ambulanceStage amb l)) =
      applyFilters lower search filterType amb l ∧
    ambulanceStage amb (typeStage filterType (searchStage lower search l)) =
      applyFilters lower search filterType amb l := by
  simp only [applyFilters_eq_stages, searchStage_eq_filter, typeStage_eq_filter,
    ambulanceStage_eq_filter, List.filter_filter]
  refine ⟨?_, ?_, ?_, ?_, ?_, trivial⟩ <;>
    exact List.filter_congr (fun h _ => by ac_rfl)

/-- C14. The hospital filter is idempotent: filtering the filtered view again with
the same query returns it unchanged, element for element and in the same order. -/
theorem applyFilters_idempotent (lower : String → String) (search filterType : String)
    (amb : Bool) (l : List Hospital) :
    applyFilters lower search filterType amb (applyFilters lower search filterType amb l) =
      applyFilters lower search filterType amb l := by
  rw [applyFilters_eq_filter, applyFilters_eq_filter, List.filter_filter]
  exact List.filter_congr (fun h _ => Bool.and_self _)

/-- C16. The filtered view is an order-preserving sub-list of the catalog made of
the catalog's own records: nothing is added to a record and the catalog order is
kept among the hospitals that pass. -/
theorem filtered_sublist_of_catalog (lower : String → String) (s : FinderState) :
    List.Sublist (filterEffect lower s).filtered s.hospitals ∧
    ∀ h ∈ (filterEffect lower s).filtered, h ∈ s.hospitals := by
  have hs : List.Sublist (filterEffect lower s).filtered s.hospitals := by
    unfold filterEffect
    rw [applyFilters_eq_filter]
    exact List.filter_sublist _
  exact ⟨hs, fun h hh => hs.subset hh⟩

/-! ## Ranking by distance -/

theorem rankLe_total (dist : Position → Position → ℚ) (origin : Position) (a b : Hospital) :
    rankLe dist origin a b ∨ rankLe dist origin b a := by
  unfold rankLe
  rcases lt_trichotomy (distanceOf dist origin a) (distanceOf dist origin b) with h | h | h
  · exact Or.inl (Or.inl h)
  · rcases le_total a.id b.id with hi | hi
    · exact Or.inl (Or.inr ⟨h, hi⟩)
    · exact Or.inr (Or.inr ⟨h.symm, hi⟩)
  · exact Or.inr (Or.inl h)

theorem rankLe_trans (dist : Position → Position → ℚ) (origin : Position) (a b c : Hospital)
    (hab : rankLe dist origin a b) (hbc : rankLe dist origin b c) : rankLe dist origin a c := by
  unfold rankLe at *
  rcases hab with h1 | ⟨h1, i1⟩
  · rcases hbc with h2 | ⟨h2, _⟩
    · exact Or.inl (lt_trans h1 h2)
    · exact Or.inl (h2 ▸ h1)
  · rcases hbc with h2 | ⟨h2, i2⟩
    · exact Or.inl (h1 ▸ h2)
    · exact Or.inr ⟨h1.trans h2, le_trans i1 i2⟩

theorem rankLe_distance (dist : Position → Position → ℚ) (origin : Position) (a b : Hospital)
    (h : rankLe dist origin a b) : distanceOf dist origin a ≤ distanceOf dist origin b := by
  rcases h with h | ⟨h, _⟩
  · exact le_of_lt h
  · exact le_of_eq h

theorem distanceOf_attachDistance (dist : Position → Position → ℚ) (origin : Position)
    (h : Hospital) :
    distanceOf dist origin (attachDistance dist origin h) = distanceOf dist origin h := rfl

theorem keeps_attachDistance (lower : String → String) (search filterType : String)
    (amb : Bool) (dist : Position → Position → ℚ) (origin : Position) (h : Hospital) :
    keeps lower search filterType amb (attachDistance dist origin h) =
      keeps lower search filterType amb h := rfl

/-- The answer of the nearby query is sorted ascending by distance. -/
theorem nearbyQuery_sorted (dist : Position → Position → ℚ) (origin : Position) (radius : ℚ)
    (catalog : List Hospital) :
    (nearbyQuery dist origin radius catalog).Pairwise
      (fun a b => distanceOf dist origin a ≤ distanceOf dist origin b) := by
  haveI : IsTotal Hospital (rankLe dist origin) := ⟨rankLe_total dist origin⟩
  haveI : IsTrans Hospital (rankLe dist origin) := ⟨rankLe_trans dist origin⟩
  have hs := List.sorted_insertionSort (rankLe dist origin)
    (catalog.filter fun h => distanceOf dist origin h ≤ radius)
  unfold nearbyQuery
  rw [List.pairwise_map]
  exact List.Pairwise.imp (fun {a b} hab => rankLe_distance dist origin a b hab) hs

theorem mem_nearbyQuery (dist : Position → Position → ℚ) (origin : Position) (radius : ℚ)
    (catalog : List Hospital) (a : Hospital) :
    a ∈ nearbyQuery dist origin radius catalog ↔
      ∃ h ∈ catalog, distanceOf dist origin h ≤ radius ∧ attachDistance dist origin h = a := by
  unfold nearbyQuery
  rw [List.mem_map]
  constructor
  · rintro ⟨h, hm, rfl⟩
    rw [(List.perm_insertionSort _ _).mem_iff, List.mem_filter] at hm
    exact ⟨h, hm.1, by simpa using hm.2, rfl⟩
  · rintro ⟨h, hc, hr, rfl⟩
    refine ⟨h, ?_, rfl⟩
    rw [(List.perm_insertionSort _ _).mem_iff, List.mem_filter]
    exact ⟨hc, by simpa using hr⟩

theorem nearbyView_eq (lower : String → String) (dist : Position → Position → ℚ)
    (origin : Position) (radius : ℚ) (catalog : List Hospital)
    (all : Reply (List Hospital)) (s : FinderState) :
    nearbyView lower dist origin radius catalog all s =
      (nearbyQuery dist origin radius catalog).filter
        (keeps lower s.search s.filterType s.showAmbulanceOnly) := by
  rw [← applyFilters_eq_filter]
  rfl

/-- C15. When the nearby query answers for an origin, the list shown after the
filter effect is sorted ascending by distance from that origin: every record
shown carries its distance, every hospital of the catalog within the radius that
passes the active filters is shown, and whenever the distance of a shown hospital
A is smaller than that of a shown hospital B, A stands before B. -/
theorem nearby_view_sorted_by_distance (lower : String → String)
    (dist : Position → Position → ℚ) (origin : Position) (radius : ℚ)
    (catalog : List Hospital) (all : Reply (List Hospital)) (s : FinderState) :
    (nearbyView lower dist origin radius catalog all s).Pairwise
      (fun a b => distanceOf dist origin a ≤ distanceOf dist origin b) ∧
    (∀ a ∈ nearbyView lower dist origin radius catalog all s,
      a.distance_km = some (distanceOf dist origin a)) ∧
    (∀ h ∈ catalog, distanceOf dist origin h ≤ radius →
      passes lower s.search s.filterType s.showAmbulanceOnly h →
      attachDistance dist origin h ∈ nearbyView lower dist origin radius catalog all s) ∧
    (∀ (i j : Nat) (a b : Hospital),
      (nearbyView lower dist origin radius catalog all s)[i]? = some a →
      (nearbyView lower dist origin radius catalog all s)[j]? = some b →
      distanceOf dist origin a < distanceOf dist origin b → i < j) := by
  have hsorted : (nearbyView lower dist origin radius catalog all s).Pairwise
      (fun a b => distanceOf dist origin a ≤ distanceOf dist origin b) := by
    rw [nearbyView_eq]
    exact (nearbyQuery_sorted dist origin radius catalog).filter _
  refine ⟨hsorted, ?_, ?_, ?_⟩
  · intro a ha
    rw [nearbyView_eq, List.mem_filter, mem_nearbyQuery] at ha
    obtain ⟨⟨h, _, _, rfl⟩, _⟩ := ha
    rfl
  · intro h hc hr hp
    rw [nearbyView_eq, List.mem_filter, mem_nearbyQuery, keeps_attachDistance, keeps_iff]
    exact ⟨⟨h, hc, hr, rfl⟩, hp⟩
  · intro i j a b hi hj hlt
    by_contra hij
    obtain ⟨hi', hia⟩ := List.getElem?_eq_some_iff.mp hi
    obtain ⟨hj', hjb⟩ := List.getElem?_eq_some_iff.mp hj
    rcases Nat.lt_or_ge j i with hji | hji
    · have := (List.pairwise_iff_getElem.mp hsorted) j i hj' hi' hji
      rw [hia, hjb] at this
      exact absurd hlt (not_lt.mpr this)
    · have hij' : i = j := Nat.le_antisymm hji (Nat.le_of_not_lt hij)
      subst hij'
      rw [hia] at hjb
      subst hjb
      exact lt_irrefl _ hlt

/-- With the two sample hospitals, the nearer government hospital is shown before
the private one although the catalog lists it second. -/
theorem nearby_view_sorted_by_distance_witness :
    (nearbyView asciiLower sampleDist defaultPosition 1000 [sampleApollo, sampleGovernment]
        Reply.failed initialState)[0]? =
      some (attachDistance sampleDist defaultPosition sampleGovernment) ∧
    (nearbyView asciiLower sampleDist defaultPosition 1000 [sampleApollo, sampleGovernment]
        Reply.failed initialState)[1]? =
      some (attachDistance sampleDist defaultPosition sampleApollo) ∧
    distanceOf sampleDist defaultPosition
        (attachDistance sampleDist defaultPosition sampleGovernment) <
      distanceOf sampleDist defaultPosition
        (attachDistance sampleDist defaultPosition sampleApollo) ∧
    0 < 1 :=
  ⟨by decide, by decide, by decide,
   (nearby_view_sorted_by_distance asciiLower sampleDist defaultPosition 1000
     [sampleApollo, sampleGovernment] Reply.failed initialState).2.2.2 0 1
     (attachDistance sampleDist defaultPosition sampleGovernment)
     (attachDistance sampleDist defaultPosition sampleApollo)
     (by decide) (by decide) (by decide)⟩

/-- C17. When the nearby query fails and the full-catalog query returns the list
`c`, `fetchNearby` leaves both the catalog and the filtered view equal to `c`
(so the view is empty only if `c` is) and clears `loading`; the filter effect
that follows shows `c` filtered by the current query, which is `c` itself under
the initial query. -/
theorem fetchNearby_falls_back_to_catalog (lower : String → String) (lat lng : ℚ)
    (c : List Hospital) (s : FinderState) :
    (fetchNearby lat lng Reply.failed (Reply.ok c) s).state.hospitals = c ∧
    (fetchNearby lat lng Reply.failed (Reply.ok c) s).state.filtered = c ∧
    ((fetchNearby lat lng Reply.failed (Reply.ok c) s).state.filtered = [] ↔ c = []) ∧
    (fetchNearby lat lng Reply.failed (Reply.ok c) s).state.loading = false ∧
    (fetchNearby lat lng Reply.failed (Reply.ok c) s).requests =
      [HospitalRequest.nearby lat lng 200, HospitalRequest.all] ∧
    (filterEffect lower (fetchNearby lat lng Reply.failed (Reply.ok c) s).state).filtered =
      applyFilters lower s.search s.filterType s.showAmbulanceOnly c ∧
    applyFilters lower "" "all" false c = c :=
  ⟨rfl, rfl, Iff.rfl, rfl, rfl, rfl, rfl⟩

end HospitalFinder

namespace Geolocation

/-! ## Facts about the location labels -/

theorem finder_fetchNearby_keeps_location (lat lng : ℚ)
    (nearby all : Reply (List HospitalFinder.Hospital)) (s : HospitalFinder.FinderState) :
    (HospitalFinder.fetchNearby lat lng nearby all s).state.location = s.location ∧
    (HospitalFinder.fetchNearby lat lng nearby all s).state.locationName = s.locationName := by
  cases nearby <;> cases all <;> exact ⟨rfl, rfl⟩

theorem dashboard_fetchNearby_keeps_location
    (nearby : Reply (List HospitalFinder.Hospital)) (s : PatientDashboard.DashboardState) :
    (PatientDashboard.fetchNearby nearby s).location = s.location ∧
    (PatientDashboard.fetchNearby nearby s).locationName = s.locationName := by
  cases nearby <;> exact ⟨rfl, rfl⟩

theorem finder_live_label_ne_default (toFixed2 : ℚ → String) (latitude longitude : ℚ) :
    HospitalFinder.liveLocationName toFixed2 latitude longitude ≠
      HospitalFinder.defaultLocationName := by
  intro h
  have hd := congrArg (fun t : String => t.data.head?) h
  simp only [HospitalFinder.liveLocationName, String.data_append] at hd
  have h2 : HospitalFinder.defaultLocationName.data.head? = some 'K' := rfl
  rw [h2] at hd
  simp at hd

theorem dashboard_live_label_ne_default (toFixed2 : ℚ → String) (latitude longitude : ℚ) :
    PatientDashboard.liveLocationName toFixed2 latitude longitude ≠
      PatientDashboard.defaultLocationName := by
  intro h
  have hd := congrArg (fun t : String => t.data.getLast?) h
  simp only [PatientDashboard.liveLocationName, String.data_append] at hd
  have h2 : PatientDashboard.defaultLocationName.data.getLast? = some 'u' := rfl
  rw [h2, List.getLast?_append] at hd
  simp at hd

/-! ## Claims about location acquisition -/

/-- C18, evaluated at every outcome of the geolocation read.  On success each of
the three sites resolves the live coordinates, and on error or denial each
resolves the fixed fallback.  When the capability is absent only `getPos` of the
emergency page resolves the fallback: the hospital finder and the dashboard do
nothing, so no position is resolved, no fetch is started and the finder keeps
`loading` set. -/
theorem geolocation_sites_resolution (toFixed2 : ℚ → String) (latitude longitude : ℚ)
    (nearby all : Reply (List HospitalFinder.Hospital)) :
    (HospitalFinder.geolocationEffect toFixed2 (GeoOutcome.success latitude longitude)
        nearby all HospitalFinder.initialState).state.location =
      some { lat := latitude, lng := longitude } ∧
    (HospitalFinder.geolocationEffect toFixed2 GeoOutcome.error
        nearby all HospitalFinder.initialState).state.location = some defaultPosition ∧
    (PatientDashboard.geolocationEffect toFixed2 (GeoOutcome.success latitude longitude)
        nearby PatientDashboard.initialState).location =
      some { lat := latitude, lng := longitude } ∧
    (PatientDashboard.geolocationEffect toFixed2 GeoOutcome.error
        nearby PatientDashboard.initialState).location = some defaultPosition ∧
    EmergencyPage.getPos (GeoOutcome.success latitude longitude) =
      { lat := latitude, lng := longitude } ∧
    EmergencyPage.getPos GeoOutcome.error = defaultPosition ∧
    EmergencyPage.getPos GeoOutcome.absent = defaultPosition ∧
    (HospitalFinder.geolocationEffect toFixed2 GeoOutcome.absent
        nearby all HospitalFinder.initialState).state.location = none ∧
    (HospitalFinder.geolocationEffect toFixed2 GeoOutcome.absent
        nearby all HospitalFinder.initialState).state.loading = true ∧
    (HospitalFinder.geolocationEffect toFixed2 GeoOutcome.absent
        nearby all HospitalFinder.initialState).requests = [] ∧
    (PatientDashboard.geolocationEffect toFixed2 GeoOutcome.absent
        nearby PatientDashboard.initialState).location = none := by
  refine ⟨?_, ?_, ?_, ?_, rfl, rfl, rfl, rfl, rfl, rfl, rfl⟩
  · exact (finder_fetchNearby_keeps_location _ _ nearby all _).1
  · exact (finder_fetchNearby_keeps_location _ _ nearby all _).1
  · exact (dashboard_fetchNearby_keeps_location nearby _).1
  · exact (dashboard_fetchNearby_keeps_location nearby _).1

/-- C19, as stated, fails at the emergency page: a request made when the read
failed and a request made from a live read at the fallback coordinates leave
exactly the same state, position and posted body. -/
theorem emergency_fallback_not_marked :
    EmergencyPage.getPos GeoOutcome.error =
      EmergencyPage.getPos (GeoOutcome.success defaultPosition.lat defaultPosition.lng) ∧
    EmergencyPage.requestAmbulance (some "tok") (some "Asha") GeoOutcome.error Reply.failed
        (EmergencyPage.initialState (some "Asha")) =
      EmergencyPage.requestAmbulance (some "tok") (some "Asha")
        (GeoOutcome.success defaultPosition.lat defaultPosition.lng) Reply.failed
        (EmergencyPage.initialState (some "Asha")) :=
  ⟨rfl, rfl⟩

/-- C19, amended. At the hospital finder and at the dashboard the location label
marks the provenance: the error callback sets the fixed fallback label, the
success callback sets a label built from the coordinates, and the two labels
always differ; so a fallback position and a live position with the same
coordinates store the same `location` but different labels. -/
theorem location_label_marks_fallback (toFixed2 : ℚ → String) (latitude longitude : ℚ)
    (nearby all : Reply (List HospitalFinder.Hospital))
    (s : HospitalFinder.FinderState) (d : PatientDashboard.DashboardState) :
    (HospitalFinder.geolocationEffect toFixed2 GeoOutcome.error nearby all s).state.locationName =
      HospitalFinder.defaultLocationName ∧
    (HospitalFinder.geolocationEffect toFixed2 (GeoOutcome.success latitude longitude)
        nearby all s).state.locationName =
      HospitalFinder.liveLocationName toFixed2 latitude longitude ∧
    HospitalFinder.liveLocationName toFixed2 latitude longitude ≠
      HospitalFinder.defaultLocationName ∧
    (HospitalFinder.geolocationEffect toFixed2 GeoOutcome.error nearby all s).state.location =
      (HospitalFinder.geolocationEffect toFixed2
        (GeoOutcome.success defaultPosition.lat defaultPosition.lng) nearby all s).state.location ∧
    (HospitalFinder.geolocationEffect toFixed2 GeoOutcome.error nearby all s).state.locationName ≠
      (HospitalFinder.geolocationEffect toFixed2
        (GeoOutcome.success defaultPosition.lat defaultPosition.lng)
        nearby all s).state.locationName ∧
    (PatientDashboard.geolocationEffect toFixed2 GeoOutcome.error nearby d).locationName =
      PatientDashboard.defaultLocationName ∧
    (PatientDashboard.geolocationEffect toFixed2 (GeoOutcome.success latitude longitude)
        nearby d).locationName =
      PatientDashboard.liveLocationName toFixed2 latitude longitude ∧
    PatientDashboard.liveLocationName toFixed2 latitude longitude ≠
      PatientDashboard.defaultLocationName ∧
    (PatientDashboard.geolocationEffect toFixed2 GeoOutcome.error nearby d).location =
      (PatientDashboard.geolocationEffect toFixed2
        (GeoOutcome.success defaultPosition.lat defaultPosition.lng) nearby d).location ∧
    (PatientDashboard.geolocationEffect toFixed2 GeoOutcome.error nearby d).locationName ≠
      (PatientDashboard.geolocationEffect toFixed2
        (GeoOutcome.success defaultPosition.lat defaultPosition.lng) nearby d).locationName := by
  have f1 : (HospitalFinder.geolocationEffect toFixed2 GeoOutcome.error
      nearby all s).state.locationName = HospitalFinder.defaultLocationName :=
    (finder_fetchNearby_keeps_location _ _ nearby all _).2
  have f2 : ∀ la lo, (HospitalFinder.geolocationEffect toFixed2 (GeoOutcome.success la lo)
      nearby all s).state.locationName = HospitalFinder.liveLocationName toFixed2 la lo :=
    fun la lo => (finder_fetchNearby_keeps_location _ _ nearby all _).2
  have f3 : (HospitalFinder.geolocationEffect toFixed2 GeoOutcome.error
      nearby all s).state.location = some defaultPosition :=
    (finder_fetchNearby_keeps_location _ _ nearby all _).1
  have f4 : (HospitalFinder.geolocationEffect toFixed2
      (GeoOutcome.success defaultPosition.lat defaultPosition.lng)
      nearby all s).state.location = some defaultPosition :=
    (finder_fetchNearby_keeps_location _ _ nearby all _).1
  have d1 : (PatientDashboard.geolocationEffect toFixed2 GeoOutcome.error
      nearby d).locationName = PatientDashboard.defaultLocationName :=
    (dashboard_fetchNearby_keeps_location nearby _).2
  have d2 : ∀ la lo, (PatientDashboard.geolocationEffect toFixed2 (GeoOutcome.success la lo)
      nearby d).locationName = PatientDashboard.liveLocationName toFixed2 la lo :=
    fun la lo => (dashboard_fetchNearby_keeps_location nearby _).2
  have d3 : (PatientDashboard.geolocationEffect toFixed2 GeoOutcome.error
      nearby d).location = some defaultPosition :=
    (dashboard_fetchNearby_keeps_location nearby _).1
  have d4 : (PatientDashboard.geolocationEffect toFixed2
      (GeoOutcome.success defaultPosition.lat defaultPosition.lng)
      nearby d).location = some defaultPosition :=
    (dashboard_fetchNearby_keeps_location nearby _).1
  refine ⟨f1, f2 _ _, finder_live_label_ne_default _ _ _, f3.trans f4.symm, ?_,
    d1, d2 _ _, dashboard_live_label_ne_default _ _ _, d3.trans d4.symm, ?_⟩
  · rw [f1, f2]
    exact (finder_live_label_ne_default _ _ _).symm
  · rw [d1, d2]
    exact (dashboard_live_label_ne_default _ _ _).symm

end Geolocation

namespace EmergencyPage

open Geolocation

/-! ## Claims about the ambulance request -/

/-- C20, as stated, fails for a name field made of white space only: the field is
posted as typed, not replaced by the display name. -/
theorem whitespace_name_posted_as_typed :
    AIChat.isBlank "  " = true ∧
    (requestAmbulance (some "tok") (some "Asha") GeoOutcome.error Reply.failed
        { requesting := false, ambulanceReq := none,
          form := { patient_name := "  ", phone := "98765", emergency_type := "cardiac",
                    notes := "" } }).posted.map (fun b => b.patient_name) = ["  "] ∧
    (requestAmbulance (some "tok") (some "Asha") GeoOutcome.error Reply.failed
        { requesting := false, ambulanceReq := none,
          form := { patient_name := "  ", phone := "98765", emergency_type := "cardiac",
                    notes := "" } }).posted.map (fun b => b.patient_name) ≠ ["Asha"] := by
  decide

/-- C20, amended. For a signed-in identity with a display name, the request posts
exactly one body; its `patient_name` is the form's patient name when that field
is not empty (white space included, as typed), and the identity's display name
when the field is empty. -/
theorem patient_name_defaults_when_empty (token : Option String) (name : String)
    (geo : GeoOutcome) (reply : Reply AmbulanceRequest) (s : EmergencyState)
    (ht : AIChat.idFalsy token = false) (hn : name ≠ "") :
    (requestAmbulance token (some name) geo reply s).posted =
      [buildPayload s.form (some name) (getPos geo)] ∧
    (s.form.patient_name ≠ "" →
      (buildPayload s.form (some name) (getPos geo)).patient_name = s.form.patient_name) ∧
    (s.form.patient_name = "" →
      (buildPayload s.form (some name) (getPos geo)).patient_name = name) := by
  have hname := (AIChat.strFalsy_eq_false_iff name).mpr hn
  refine ⟨?_, ?_, ?_⟩
  · unfold requestAmbulance
    rw [ht]
    cases reply <;> rfl
  · intro hf
    have h1 := (AIChat.strFalsy_eq_false_iff s.form.patient_name).mpr hf
    simp [buildPayload, payloadName, AIChat.orElseStr, h1]
  · intro hf
    have h1 : AIChat.strFalsy s.form.patient_name = true := by rw [hf]; rfl
    simp [buildPayload, payloadName, AIChat.orElseStr, h1, hname]

/-- A request with an empty name field posts the display name. -/
theorem patient_name_defaults_when_empty_witness :
    AIChat.idFalsy (some "tok") = false ∧ "Asha" ≠ "" ∧
    (buildPayload
        { patient_name := "", phone := "98765", emergency_type := "cardiac", notes := "" }
        (some "Asha") (getPos GeoOutcome.error)).patient_name = "Asha" :=
  ⟨by decide, by decide,
   (patient_name_defaults_when_empty (some "tok") "Asha" GeoOutcome.error Reply.failed
     { requesting := false, ambulanceReq := none,
       form := { patient_name := "", phone := "98765", emergency_type := "cardiac",
                 notes := "" } } (by decide) (by decide)).2.2 rfl⟩

end EmergencyPage

namespace EmergencyPage

open Geolocation

/-! ## Facts about `requestAmbulance` -/

theorem requestAmbulance_of_token (token userName : Option String) (geo : GeoOutcome)
    (reply : Reply AmbulanceRequest) (s : EmergencyState)
    (ht : AIChat.idFalsy token = false) :
    requestAmbulance token userName geo reply s =
      { state :=
          { requesting := false,
            ambulanceReq := match reply with
              | .ok data => some data
              | .failed => s.ambulanceReq,
            form := s.form },
        navigatedTo := none,
        geoReads := if geo = GeoOutcome.absent then 0 else 1,
        posted := [buildPayload s.form userName (getPos geo)] } := by
  unfold requestAmbulance
  rw [ht]
  cases reply <;> rfl

theorem defaultPosition_ne_origin : defaultPosition ≠ { lat := 0, lng := 0 } := by
  intro h
  have hl := congrArg Position.lat h
  simp only [defaultPosition] at hl
  norm_num at hl

theorem sampleId_injective : Function.Injective sampleId := by
  intro a b h
  have hl := congrArg (fun t : String => t.data.length) h
  simpa [sampleId] using hl

theorem submitTo_of_token (mkId : Nat → String) (status : String) (eta : ℚ)
    (token userName : Option String) (geo : GeoOutcome) (svc : AmbulanceService)
    (s : EmergencyState) (ht : AIChat.idFalsy token = false) :
    submitTo mkId status eta token userName geo svc s =
      ({ state :=
           { requesting := false,
             ambulanceReq := some { id := some (mkId svc.created), status := status,
                                    emergency_type := s.form.emergency_type,
                                    eta_minutes := eta },
             form := s.form },
         navigatedTo := none,
         geoReads := if geo = GeoOutcome.absent then 0 else 1,
         posted := [buildPayload s.form userName (getPos geo)] },
       { created := svc.created + 1 }) := by
  unfold submitTo
  rw [if_neg (by rw [ht]; decide), requestAmbulance_of_token token userName geo _ s ht]
  rfl

/-! ## Claims about the ambulance request -/

/-- C21, as stated, fails on its last part: the handler has no validation error.
When the geolocation read never calls back, no position is resolved; nothing is
posted and nothing is stored, but the request does not fail: the promise of the
handler is pending, not rejected, no navigation happens and `requesting` stays
set. -/
theorem no_validation_error_without_position :
    (requestAmbulanceAwaiting (some "tok") (initialState (some "Asha"))).1.posted = [] ∧
    (requestAmbulanceAwaiting (some "tok") (initialState (some "Asha"))).1.state.ambulanceReq =
      none ∧
    (requestAmbulanceAwaiting (some "tok") (initialState (some "Asha"))).1.state.requesting =
      true ∧
    (requestAmbulanceAwaiting (some "tok") (initialState (some "Asha"))).1.navigatedTo =
      none ∧
    (requestAmbulanceAwaiting (some "tok") (initialState (some "Asha"))).2 =
      PromiseState.pending ∧
    (requestAmbulanceAwaiting (some "tok") (initialState (some "Asha"))).2 ≠
      PromiseState.rejected :=
  ⟨rfl, rfl, rfl, rfl, rfl, by decide⟩

/-- C21, amended. A signed-in request never posts a body without coordinates and
never defaults them to (0,0): once the geolocation read has settled, exactly one
body is posted and it carries the position resolved for that request, which is
the live position on success and the fixed fallback otherwise, the fallback not
being (0,0).  There is no validation error and the handler never fails: its
promise is fulfilled once the read has settled and pending before, never
rejected.  While the read has not settled nothing is posted, no request object
is stored (the stored request and the form are untouched), no navigation
happens and `requesting` stays true. -/
theorem posted_body_carries_resolved_position (token userName : Option String)
    (geo : GeoOutcome) (reply : Reply AmbulanceRequest) (s : EmergencyState)
    (ht : AIChat.idFalsy token = false) :
    (requestAmbulance token userName geo reply s).posted =
      [buildPayload s.form userName (getPos geo)] ∧
    (buildPayload s.form userName (getPos geo)).lat = (getPos geo).lat ∧
    (buildPayload s.form userName (getPos geo)).lng = (getPos geo).lng ∧
    (∀ latitude longitude, geo = GeoOutcome.success latitude longitude →
      getPos geo = { lat := latitude, lng := longitude }) ∧
    ((∀ latitude longitude, geo ≠ GeoOutcome.success latitude longitude) →
      getPos geo = defaultPosition) ∧
    defaultPosition ≠ { lat := 0, lng := 0 } ∧
    requestAmbulancePromise token reply = PromiseState.fulfilled ∧
    requestAmbulancePromise token reply ≠ PromiseState.rejected ∧
    requestAmbulanceAwaiting token s =
      ({ state := { requesting := true, ambulanceReq := s.ambulanceReq, form := s.form },
         navigatedTo := none, geoReads := 1, posted := [] },
       PromiseState.pending) ∧
    (requestAmbulanceAwaiting token s).1.posted = [] ∧
    (requestAmbulanceAwaiting token s).1.state.ambulanceReq = s.ambulanceReq ∧
    (requestAmbulanceAwaiting token s).1.state.form = s.form ∧
    (requestAmbulanceAwaiting token s).1.state.requesting = true ∧
    (requestAmbulanceAwaiting token s).1.navigatedTo = none ∧
    (requestAmbulanceAwaiting token s).2 = PromiseState.pending ∧
    (requestAmbulanceAwaiting token s).2 ≠ PromiseState.rejected := by
  have hpromise : requestAmbulancePromise token reply = PromiseState.fulfilled := by
    unfold requestAmbulancePromise
    rw [ht]
    cases reply <;> rfl
  have hwait : requestAmbulanceAwaiting token s =
      ({ state := { requesting := true, ambulanceReq := s.ambulanceReq, form := s.form },
         navigatedTo := none, geoReads := 1, posted := [] },
       PromiseState.pending) := by
    unfold requestAmbulanceAwaiting
    rw [ht]; rfl
  refine ⟨?_, rfl, rfl, ?_, ?_, defaultPosition_ne_origin, hpromise, ?_, hwait,
    ?_, ?_, ?_, ?_, ?_, ?_, ?_⟩
  · rw [requestAmbulance_of_token token userName geo reply s ht]
  · intro la lo hg
    rw [hg]; rfl
  · intro hg
    cases geo with
    | success la lo => exact absurd rfl (hg la lo)
    | error => rfl
    | absent => rfl
  · rw [hpromise]; decide
  · rw [hwait]
  · rw [hwait]
  · rw [hwait]
  · rw [hwait]
  · rw [hwait]
  · rw [hwait]
  · rw [hwait]
    intro h
    cases h

/-- A signed-in request made after a denied read posts the fallback coordinates,
and one whose read has not settled keeps `requesting` set. -/
theorem posted_body_carries_resolved_position_witness :
    AIChat.idFalsy (some "tok") = false ∧
    (requestAmbulance (some "tok") none GeoOutcome.error Reply.failed
        (initialState none)).posted =
      [buildPayload (initialState none).form none (getPos GeoOutcome.error)] ∧
    (requestAmbulanceAwaiting (some "tok") (initialState none)).1.state.requesting = true :=
  ⟨by decide,
   (posted_body_carries_resolved_position (some "tok") none GeoOutcome.error Reply.failed
     (initialState none) (by decide)).1,
   (posted_body_carries_resolved_position (some "tok") none GeoOutcome.error Reply.failed
     (initialState none) (by decide)).2.2.2.2.2.2.2.2.2.2.2.2.1⟩

/-- C22. After a successful signed-in submission with server answer `r`, the
stored request is `r` itself: its id, status, emergency type and ETA are the
values the server returned, with nothing recomputed or rounded. -/
theorem stored_request_is_server_answer (token userName : Option String) (geo : GeoOutcome)
    (r : AmbulanceRequest) (s : EmergencyState) (ht : AIChat.idFalsy token = false) :
    (requestAmbulance token userName geo (Reply.ok r) s).state.ambulanceReq = some r ∧
    (∀ q, (requestAmbulance token userName geo (Reply.ok r) s).state.ambulanceReq = some q →
      q.eta_minutes = r.eta_minutes ∧ q.status = r.status ∧ q.id = r.id ∧
      q.emergency_type = r.emergency_type) := by
  rw [requestAmbulance_of_token token userName geo (Reply.ok r) s ht]
  refine ⟨rfl, ?_⟩
  intro q hq
  have : q = r := (Option.some.inj hq).symm
  subst this
  exact ⟨rfl, rfl, rfl, rfl⟩

/-- The sample answer is stored as received. -/
theorem stored_request_is_server_answer_witness :
    AIChat.idFalsy (some "tok") = false ∧
    (requestAmbulance (some "tok") (some "Asha") GeoOutcome.error (Reply.ok sampleAnswer)
        (initialState (some "Asha"))).state.ambulanceReq = some sampleAnswer :=
  ⟨by decide,
   (stored_request_is_server_answer (some "tok") (some "Asha") GeoOutcome.error sampleAnswer
     (initialState (some "Asha")) (by decide)).1⟩

/-- C23. Request Another clears the stored request, and a successful submission
made afterwards stores exactly the new answer, whatever was stored before.
Against the modelled service, whose id generator never repeats, the request
stored by the second of two signed-in submissions is the newly created object
and its id differs from the id stored by the first. -/
theorem request_another_starts_afresh (mkId : Nat → String) (status1 : String) (eta1 : ℚ)
    (status2 : String) (eta2 : ℚ) (token userName : Option String) (geo1 geo2 : GeoOutcome)
    (svc : AmbulanceService) (s : EmergencyState) (r : AmbulanceRequest)
    (hinj : Function.Injective mkId) (ht : AIChat.idFalsy token = false) :
    (requestAnother s).ambulanceReq = none ∧
    (requestAmbulance token userName geo2 (Reply.ok r) (requestAnother s)).state.ambulanceReq =
      some r ∧
    (requestTwice mkId status1 eta1 status2 eta2 token userName geo1 geo2 svc s).1.ambulanceReq =
      some { id := some (mkId svc.created), status := status1,
             emergency_type := s.form.emergency_type, eta_minutes := eta1 } ∧
    (requestTwice mkId status1 eta1 status2 eta2 token userName geo1 geo2 svc
        s).2.1.ambulanceReq = none ∧
    (requestTwice mkId status1 eta1 status2 eta2 token userName geo1 geo2 svc
        s).2.2.ambulanceReq =
      some { id := some (mkId (svc.created + 1)), status := status2,
             emergency_type := s.form.emergency_type, eta_minutes := eta2 } ∧
    (some (mkId svc.created) : Option String) ≠ some (mkId (svc.created + 1)) := by
  refine ⟨rfl, ?_, ?_, ?_, ?_, ?_⟩
  · rw [requestAmbulance_of_token token userName geo2 (Reply.ok r) _ ht]
  · unfold requestTwice
    simp only [submitTo_of_token mkId _ _ token userName _ _ _ ht]
  · unfold requestTwice
    simp only [submitTo_of_token mkId _ _ token userName _ _ _ ht]
    rfl
  · unfold requestTwice
    simp only [submitTo_of_token mkId _ _ token userName _ _ _ ht]
    rfl
  · intro h
    have := hinj (Option.some.inj h)
    omega

/-- Two requests in a row against the sample service store two different ids. -/
theorem request_another_starts_afresh_witness :
    Function.Injective sampleId ∧ AIChat.idFalsy (some "tok") = false ∧
    (requestTwice sampleId "requested" 12 "dispatched" 9 (some "tok") (some "Asha")
        GeoOutcome.error GeoOutcome.error { created := 0 }
        (initialState (some "Asha"))).2.2.ambulanceReq =
      some { id := some (sampleId (0 + 1)), status := "dispatched",
             emergency_type := (initialState (some "Asha")).form.emergency_type,
             eta_minutes := 9 } :=
  ⟨sampleId_injective, by decide,
   (request_another_starts_afresh sampleId "requested" 12 "dispatched" 9 (some "tok")
     (some "Asha") GeoOutcome.error GeoOutcome.error { created := 0 }
     (initialState (some "Asha")) sampleAnswer sampleId_injective (by decide)).2.2.2.2.1⟩

/-- C24. Without a session token `requestAmbulance` navigates to the login route
and does nothing else: no geolocation read, no body posted, and the state
(`requesting`, the stored request, the form) is returned as it was. -/
theorem requestAmbulance_without_token (token userName : Option String) (geo : GeoOutcome)
    (reply : Reply AmbulanceRequest) (s : EmergencyState)
    (ht : AIChat.idFalsy token = true) :
    requestAmbulance token userName geo reply s =
      { state := s, navigatedTo := some "/login", geoReads := 0, posted := [] } := by
  unfold requestAmbulance
  rw [ht]
  rfl

/-- A visitor without a token is sent to the login route. -/
theorem requestAmbulance_without_token_witness :
    AIChat.idFalsy none = true ∧
    requestAmbulance none none (GeoOutcome.success 13 80) (Reply.ok sampleAnswer)
        (initialState none) =
      { state := initialState none, navigatedTo := some "/login", geoReads := 0, posted := [] } :=
  ⟨by decide,
   requestAmbulance_without_token none none (GeoOutcome.success 13 80) (Reply.ok sampleAnswer)
     (initialState none) (by decide)⟩

/-- C29. When a signed-in submission is rejected at the network, the stored
request and the form are unchanged, `requesting` is back to false, exactly one
body was posted (no retry) and no navigation happened. -/
theorem failed_submission_keeps_form (token userName : Option String) (geo : GeoOutcome)
    (s : EmergencyState) (ht : AIChat.idFalsy token = false) :
    (requestAmbulance token userName geo Reply.failed s).state.ambulanceReq = s.ambulanceReq ∧
    (requestAmbulance token userName geo Reply.failed s).state.form = s.form ∧
    (requestAmbulance token userName geo Reply.failed s).state.requesting = false ∧
    (requestAmbulance token userName geo Reply.failed s).posted.length = 1 ∧
    (requestAmbulance token userName geo Reply.failed s).navigatedTo = none := by
  rw [requestAmbulance_of_token token userName geo Reply.failed s ht]
  exact ⟨rfl, rfl, rfl, rfl, rfl⟩

/-- A rejected submission from the initial state leaves no stored request. -/
theorem failed_submission_keeps_form_witness :
    AIChat.idFalsy (some "tok") = false ∧
    (requestAmbulance (some "tok") (some "Asha") GeoOutcome.error Reply.failed
        (initialState (some "Asha"))).state.ambulanceReq =
      (initialState (some "Asha")).ambulanceReq :=
  ⟨by decide,
   (failed_submission_keeps_form (some "tok") (some "Asha") GeoOutcome.error
     (initialState (some "Asha")) (by decide)).1⟩

end EmergencyPage

namespace HospitalFinder

open Geolocation

/-- C28, evaluated at the four outcomes.  When the nearby query answers, or when
it fails and the full-catalog query answers, `fetchNearby` completes and clears
`loading`.  When both fail, the rejection of the second request is raised from
inside the `catch` block: the promise of `fetchNearby` is rejected with nobody
handling it, `setLoading(false)` is not reached, and `loading` stays set. -/
theorem fetchNearby_outcomes (lat lng : ℚ) (a c : List Hospital)
    (all : Reply (List Hospital)) (s : FinderState) :
    (fetchNearby lat lng (Reply.ok a) all s).unhandled = false ∧
    (fetchNearby lat lng (Reply.ok a) all s).state.loading = false ∧
    (fetchNearby lat lng Reply.failed (Reply.ok c) s).unhandled = false ∧
    (fetchNearby lat lng Reply.failed (Reply.ok c) s).state.loading = false ∧
    (fetchNearby lat lng Reply.failed Reply.failed s).unhandled = true ∧
    (fetchNearby lat lng Reply.failed Reply.failed s).state.loading = true ∧
    (fetchNearby lat lng Reply.failed Reply.failed s).state.hospitals = s.hospitals ∧
    (fetchNearby lat lng Reply.failed Reply.failed s).state.filtered = s.filtered :=
  ⟨rfl, rfl, rfl, rfl, rfl, rfl, rfl, rfl⟩

end HospitalFinder

namespace BPMonitor

/-! ## Facts about the classifier and the chart -/

theorem getStatusColor_name (c : Category) : (getStatusColor c.name).label = c.label := by
  cases c <;> decide

theorem le_maxSystolic (records : List BPRecord) :
    180 ≤ maxSystolic records ∧ ∀ r ∈ records, r.systolic ≤ maxSystolic records := by
  induction records with
  | nil => exact ⟨le_refl _, fun r hr => by simp at hr⟩
  | cons a t ih =>
    have hstep : maxSystolic (a :: t) = max a.systolic (maxSystolic t) := rfl
    rw [hstep]
    refine ⟨le_trans ih.1 (le_max_right _ _), ?_⟩
    intro r hr
    rcases List.mem_cons.mp hr with h | h
    · rw [h]; exact le_max_left _ _
    · exact le_trans (ih.2 r h) (le_max_right _ _)

theorem maxSystolic_attained (records : List BPRecord) :
    maxSystolic records = 180 ∨ ∃ r ∈ records, r.systolic = maxSystolic records := by
  induction records with
  | nil => exact Or.inl rfl
  | cons a t ih =>
    have hstep : maxSystolic (a :: t) = max a.systolic (maxSystolic t) := rfl
    rw [hstep]
    rcases le_total a.systolic (maxSystolic t) with h | h
    · rw [max_eq_right h]
      rcases ih with h1 | ⟨r, hr, h1⟩
      · exact Or.inl h1
      · exact Or.inr ⟨r, List.mem_cons_of_mem _ hr, h1⟩
    · rw [max_eq_left h]
      exact Or.inr ⟨a, List.mem_cons_self _ _, rfl⟩

theorem barHeight_bounds (records : List BPRecord) (r : BPRecord)
    (hr : r.systolic ≤ maxSystolic records) (h0 : 0 ≤ r.systolic) :
    0 ≤ barHeight records r ∧ barHeight records r ≤ 100 := by
  have hm : (0 : ℚ) < (maxSystolic records : ℚ) := by
    have := (le_maxSystolic records).1
    exact_mod_cast (by omega : (0 : Int) < maxSystolic records)
  have hs : (0 : ℚ) ≤ (r.systolic : ℚ) := by exact_mod_cast h0
  have hle : (r.systolic : ℚ) ≤ (maxSystolic records : ℚ) := by exact_mod_cast hr
  unfold barHeight
  constructor
  · exact mul_nonneg (div_nonneg hs (le_of_lt hm)) (by norm_num)
  · have h1 : (r.systolic : ℚ) / (maxSystolic records : ℚ) ≤ 1 := (div_le_one hm).mpr hle
    calc (r.systolic : ℚ) / (maxSystolic records : ℚ) * 100 ≤ 1 * 100 :=
          mul_le_mul_of_nonneg_right h1 (by norm_num)
      _ = 100 := by norm_num

theorem numberInput_valid_int (m M : ℤ) (v : ℤ) :
    NumberInput.valid { min := some (m : ℚ), max := some (M : ℚ), required := true }
        (some (v : ℚ)) = true ↔ m ≤ v ∧ v ≤ M := by
  have hint : (((v : ℚ) - (m : ℚ)).isInt) = true := by
    have : ((v : ℚ) - (m : ℚ)) = ((v - m : ℤ) : ℚ) := by push_cast; ring
    rw [this]
    show ((((v - m : ℤ) : ℚ)).den == 1) = true
    rw [Rat.intCast_den]
    rfl
  simp only [NumberInput.valid, Option.getD_some, hint, Bool.and_true, Bool.and_eq_true,
    decide_eq_true_eq]
  constructor
  · rintro ⟨h1, h2⟩
    exact ⟨by exact_mod_cast h1, by exact_mod_cast h2⟩
  · rintro ⟨h1, h2⟩
    exact ⟨by exact_mod_cast h1, by exact_mod_cast h2⟩

theorem pulseInput_valid_int (pulse : Option ℤ) :
    pulseInput.valid (pulse.map fun n => (n : ℚ)) = true := by
  cases pulse with
  | none => rfl
  | some n => simp [NumberInput.valid, pulseInput, Rat.isInt]

/-! ## Claims about the blood-pressure monitor -/

/-- C25. For every pair of values the modelled classifier is total and takes the
higher-severity category of the systolic category (below 90 low, 90 to 119
normal, 120 to 129 elevated, from 130 high) and the diastolic category (below 60
low, 60 to 79 normal, 80 to 89 elevated, from 90 high); the four sample values
come out as stated; and for a record whose `status` is the name of its category
the label shown in the history list is the label of that category. -/
theorem classify_takes_higher_severity (systolic diastolic : Int) :
    (classify systolic diastolic).rank =
      Nat.max (systolicCategory systolic).rank (diastolicCategory diastolic).rank ∧
    (classify systolic diastolic = Category.high ↔ 130 ≤ systolic ∨ 90 ≤ diastolic) ∧
    (classify systolic diastolic = Category.elevated ↔
      (120 ≤ systolic ∨ 80 ≤ diastolic) ∧ systolic ≤ 129 ∧ diastolic ≤ 89) ∧
    (classify systolic diastolic = Category.normal ↔
      (90 ≤ systolic ∨ 60 ≤ diastolic) ∧ systolic ≤ 119 ∧ diastolic ≤ 79) ∧
    (classify systolic diastolic = Category.low ↔ systolic < 90 ∧ diastolic < 60) ∧
    classify 119 79 = Category.normal ∧ classify 130 70 = Category.high ∧
    classify 115 85 = Category.elevated ∧ classify 85 55 = Category.low ∧
    (∀ r : BPRecord, r.systolic = systolic → r.diastolic = diastolic →
      r.status = (classify systolic diastolic).name →
      statusShown r = (classify systolic diastolic).label) := by
  refine ⟨?_, ?_, ?_, ?_, ?_, by decide, by decide, by decide, by decide, ?_⟩
  · unfold classify Category.max
    split
    · rename_i h; exact (Nat.max_eq_right h).symm
    · rename_i h; exact (Nat.max_eq_left (Nat.le_of_lt (Nat.lt_of_not_le h))).symm
  · unfold classify Category.max systolicCategory diastolicCategory
    split_ifs <;> simp [Category.rank] at * <;> omega
  · unfold classify Category.max systolicCategory diastolicCategory
    split_ifs <;> simp [Category.rank] at * <;> omega
  · unfold classify Category.max systolicCategory diastolicCategory
    split_ifs <;> simp [Category.rank] at * <;> omega
  · unfold classify Category.max systolicCategory diastolicCategory
    split_ifs <;> simp [Category.rank] at * <;> omega
  · intro r _ _ hs
    unfold statusShown
    rw [hs, getStatusColor_name]

/-- A stored reading of 130 over 70 is shown as High. -/
theorem classify_takes_higher_severity_witness :
    statusShown { id := some "b9", systolic := 130, diastolic := 70, pulse := none,
                  notes := none, recorded_at := "2026-01-04", status := "high" } =
      (classify 130 70).label :=
  (classify_takes_higher_severity 130 70).2.2.2.2.2.2.2.2.2
    { id := some "b9", systolic := 130, diastolic := 70, pulse := none,
      notes := none, recorded_at := "2026-01-04", status := "high" } rfl rfl (by decide)

/-- C26. With the records given most recent first, the chart has min(14, n) bars;
bar `i` is drawn from record min(14, n) - 1 - i, so the oldest of the window
comes first and the latest last; each bar carries the systolic value and the
status of its record; and the array `records` is left as it was. -/
theorem chart_points_recent_reversed (records : List BPRecord) :
    (chartPoints records).length = min 14 records.length ∧
    (∀ i, i < min 14 records.length →
      (chartPoints records)[i]? =
        (records[min 14 records.length - 1 - i]?).map (chartPoint records)) ∧
    (∀ r, (chartPoint records r).systolic = r.systolic ∧
      (chartPoint records r).status = r.status) ∧
    (sliceReverse records).2 = records := by
  refine ⟨?_, ?_, fun r => ⟨rfl, rfl⟩, rfl⟩
  · simp [chartPoints, sliceReverse]
  · intro i hi
    have hlen : (records.take 14).length = min 14 records.length := List.length_take 14 records
    have hi' : i < (records.take 14).length := by rw [hlen]; exact hi
    have hidx : min 14 records.length - 1 - i < 14 := by
      have := Nat.min_le_left 14 records.length
      omega
    show (List.map (chartPoint records) (records.take 14).reverse)[i]? = _
    rw [List.getElem?_map, List.getElem?_reverse hi', hlen, List.getElem?_take_of_lt hidx]

/-- With three records the bars run from the oldest reading to the latest. -/
theorem chart_points_recent_reversed_witness :
    0 < min 14 sampleRecords.length ∧
    (chartPoints sampleRecords)[0]? =
      (sampleRecords[min 14 sampleRecords.length - 1 - 0]?).map (chartPoint sampleRecords) :=
  ⟨by decide, (chart_points_recent_reversed sampleRecords).2.1 0 (by decide)⟩

/-- C27, as stated, fails: a systolic value of 255 lies in [60, 260] and a
diastolic value of 155 lies in [30, 160], yet the form rejects either reading. -/
theorem form_rejects_above_250_or_150 :
    (60 : ℚ) ≤ 255 ∧ (255 : ℚ) ≤ 260 ∧ (30 : ℚ) ≤ 80 ∧ (80 : ℚ) ≤ 160 ∧
    formAccepts (some 255) (some 80) none = false ∧
    (60 : ℚ) ≤ 120 ∧ (120 : ℚ) ≤ 260 ∧ (30 : ℚ) ≤ 155 ∧ (155 : ℚ) ≤ 160 ∧
    formAccepts (some 120) (some 155) none = false := by
  refine ⟨by norm_num, by norm_num, by norm_num, by norm_num, by decide,
    by norm_num, by norm_num, by norm_num, by norm_num, ?_⟩
  simp [formAccepts, NumberInput.valid, systolicInput, diastolicInput, pulseInput]
  norm_num

/-- C27, amended. The form accepts a reading with whole-number values (and a
pulse left empty or whole) if and only if its systolic value lies in [60, 250]
and its diastolic value lies in [30, 150]; a reading with an empty systolic or
diastolic field is rejected. -/
theorem form_accepts_iff (systolic diastolic : ℤ) (pulse : Option ℤ) :
    (formAccepts (some (systolic : ℚ)) (some (diastolic : ℚ))
        (pulse.map fun n => (n : ℚ)) = true ↔
      (60 ≤ systolic ∧ systolic ≤ 250) ∧ (30 ≤ diastolic ∧ diastolic ≤ 150)) ∧
    formAccepts none (some (diastolic : ℚ)) (pulse.map fun n => (n : ℚ)) = false ∧
    formAccepts (some (systolic : ℚ)) none (pulse.map fun n => (n : ℚ)) = false := by
  have hs := numberInput_valid_int 60 250 systolic
  have hd := numberInput_valid_int 30 150 diastolic
  have hp := pulseInput_valid_int pulse
  have hs' : systolicInput.valid (some (systolic : ℚ)) = true ↔ 60 ≤ systolic ∧ systolic ≤ 250 := by
    simpa [systolicInput] using hs
  have hd' : diastolicInput.valid (some (diastolic : ℚ)) = true ↔
      30 ≤ diastolic ∧ diastolic ≤ 150 := by
    simpa [diastolicInput] using hd
  refine ⟨?_, ?_, ?_⟩
  · unfold formAccepts
    rw [hp, Bool.and_true, Bool.and_eq_true, hs', hd']
  · unfold formAccepts
    have : systolicInput.valid none = false := rfl
    rw [this]; rfl
  · unfold formAccepts
    have : diastolicInput.valid none = false := rfl
    rw [this, Bool.and_false, Bool.false_and]

/-- C30. The chart scale `maxSystolic` is the maximum of 180 and the recorded
systolic values (180 for the empty list): it is at least 180, at least every
recorded value, equal to 180 or to a recorded value, and never zero.  When the
systolic values are not negative, every bar height lies between 0 and 100. -/
theorem chart_scale_and_heights (records : List BPRecord) :
    maxSystolic [] = 180 ∧
    180 ≤ maxSystolic records ∧
    (∀ r ∈ records, r.systolic ≤ maxSystolic records) ∧
    (maxSystolic records = 180 ∨ ∃ r ∈ records, r.systolic = maxSystolic records) ∧
    maxSystolic records ≠ 0 ∧
    ((∀ r ∈ records, 0 ≤ r.systolic) →
      ∀ p ∈ chartPoints records, 0 ≤ p.height ∧ p.height ≤ 100) := by
  have hle := le_maxSystolic records
  refine ⟨rfl, hle.1, hle.2, maxSystolic_attained records, ?_, ?_⟩
  · have := hle.1
    omega
  · intro hnn p hp
    simp only [chartPoints, sliceReverse, List.mem_map, List.mem_reverse] at hp
    obtain ⟨r, hr, rfl⟩ := hp
    have hmem : r ∈ records := List.mem_of_mem_take hr
    exact barHeight_bounds records r (hle.2 r hmem) (hnn r hmem)

/-- With the three sample records every bar height lies between 0 and 100. -/
theorem chart_scale_and_heights_witness :
    (∀ r ∈ sampleRecords, 0 ≤ r.systolic) ∧
    ∀ p ∈ chartPoints sampleRecords, 0 ≤ p.height ∧ p.height ≤ 100 :=
  ⟨by decide, (chart_scale_and_heights sampleRecords).2.2.2.2.2 (by decide)⟩

end BPMonitor
